import Mathlib

/-! # Graphics capability probe (`gpu_checker.cpp`)

A shallow embedding of the context lifecycle manager and the capability
queries of `protosdk/src/main/cpp/gpu_checker.cpp`, and of the payload decoder
and the sensor check of `protosdk/src/main/cpp/emulator_checker.cpp`.

The process-wide `gRuntime` and everything the program asks of the
platform (EGL, GLES, the dynamic loader, the clock) are made explicit:

* a `World` carries the runtime fields, the chronological list of platform
  calls made so far (each with the answer it got) and a log of the
  entries into `InitializeContextLocked`;
* a `Driver` gives the platform's answer to every call as a function of
  the calls made before it, so a theorem quantified over `Driver` holds
  for every behaviour a driver can show, including answers that change
  from one call to the next.

Handles are `Option Nat`: `none` is the null handle (`EGL_NO_DISPLAY`,
`EGL_NO_SURFACE`, `EGL_NO_CONTEXT`, `nullptr`).  C strings are the list of
their characters before the terminating NUL, a null pointer is `none`.
`GLint`, `EGLint` and `jint` are integers kept in the 32-bit signed range
by `toInt32`.  Calls to `__android_log_print` have no effect on the state
and are left out.  The mutex `gMutex` serialises `EnsureGlContext`; the
embedding is of one thread of calls.
-/

namespace GpuChecker

/-- An EGL handle or a pointer; `none` is the null value. -/
abbrev Handle := Option Nat

/-- `EGL_NO_DISPLAY`. -/
abbrev EGL_NO_DISPLAY : Handle := none
/-- `EGL_NO_SURFACE`. -/
abbrev EGL_NO_SURFACE : Handle := none
/-- `EGL_NO_CONTEXT`. -/
abbrev EGL_NO_CONTEXT : Handle := none

/-- A C string as the program reads it: `none` for a null pointer, else the
characters before the terminating NUL. -/
abbrev CString := Option (List Char)

/-- The tokens passed to `glGetString`, `glGetIntegerv` and `glGetStringi`. -/
inductive GLenum where
  | GL_RENDERER
  | GL_VENDOR
  | GL_VERSION
  | GL_EXTENSIONS
  | GL_NUM_EXTENSIONS
  | GL_MAX_TEXTURE_SIZE
  | GL_MAX_COMPUTE_WORK_GROUP_INVOCATIONS
  | GL_GPU_MEMORY_INFO_TOTAL_AVAILABLE_MEMORY_NVX
  | GL_GPU_MEMORY_INFO_CURRENT_AVAILABLE_VIDMEM_NVX
  | GL_TEXTURE_FREE_MEMORY_ATI
  deriving DecidableEq, Repr

/-- The value of `glGetError()`. -/
inductive GLerror where
  | GL_NO_ERROR
  | raised (code : Nat)
  deriving DecidableEq, Repr

/-- The attributes passed to `eglGetConfigAttrib` and `eglQueryString`. -/
inductive EGLattrib where
  | EGL_RED_SIZE
  | EGL_GREEN_SIZE
  | EGL_BLUE_SIZE
  | EGL_ALPHA_SIZE
  | EGL_DEPTH_SIZE
  | EGL_STENCIL_SIZE
  | EGL_VENDOR
  deriving DecidableEq, Repr

/-- The value of a `VkResult`. -/
inductive VkResult where
  | VK_SUCCESS
  | failure (code : Int)
  deriving DecidableEq, Repr

/-- Two's complement reduction of an integer to the range of `int32_t`. -/
def toInt32 (x : Int) : Int := (x + 2147483648) % 4294967296 - 2147483648

/-- One platform call together with the answer it received. -/
inductive Ev where
  | eglGetDisplay (ret : Handle)
  | eglInitialize (display : Handle) (ret : Bool)
  | eglBindAPI
  | eglChooseConfig (display : Handle) (es3 : Bool) (ret : Bool) (config : Handle)
      (numConfigs : Int)
  | eglCreatePbufferSurface (display config : Handle) (ret : Handle)
  | eglCreateContext (display config : Handle) (glVersion : Int) (ret : Handle)
  | eglDestroySurface (display surface : Handle)
  | eglMakeCurrent (display draw read context : Handle) (ret : Bool)
  | eglGetConfigAttrib (display config : Handle) (attr : EGLattrib) (written : Option Int)
  | eglQueryString (display : Handle) (name : EGLattrib) (ret : CString)
  | eglGetProcAddress (procname : List Char) (resolved : Bool)
  | glGetString (name : GLenum) (ret : CString)
  | glGetStringi (name : GLenum) (index : Nat) (ret : CString)
  | glGetIntegerv (pname : GLenum) (written : Option Int)
  | glGetError (ret : GLerror)
  | glClearColor (iteration : Nat)
  | glClear
  | glFinish
  | steadyClockNow (nanos : Nat)
  | dlopen (filename : List Char) (ret : Handle)
  | dlsym (handle : Handle) (symbol : List Char) (resolved : Bool)
  | vkEnumerateInstanceVersion (ret : VkResult) (written : Option Nat)
  | dlclose (handle : Handle)
  deriving DecidableEq, Repr

/-- The platform: the answer to each call, given the calls made before it. -/
structure Driver where
  eglGetDisplay : List Ev → Handle
  eglInitialize : List Ev → Handle → Bool
  eglChooseConfig : List Ev → Handle → Bool → Bool × Handle × Int
  eglCreatePbufferSurface : List Ev → Handle → Handle → Handle
  eglCreateContext : List Ev → Handle → Handle → Int → Handle
  eglMakeCurrent : List Ev → Handle → Handle → Handle → Handle → Bool
  eglGetConfigAttrib : List Ev → Handle → Handle → EGLattrib → Option Int
  eglQueryString : List Ev → Handle → EGLattrib → CString
  eglGetProcAddress : List Ev → List Char → Bool
  glGetString : List Ev → GLenum → CString
  glGetStringi : List Ev → GLenum → Nat → CString
  glGetIntegerv : List Ev → GLenum → Option Int
  glGetError : List Ev → GLerror
  steadyClockNow : List Ev → Nat
  dlopen : List Ev → List Char → Handle
  dlsym : List Ev → Handle → List Char → Bool
  vkEnumerateInstanceVersion : List Ev → VkResult × Option Nat

/-- The fields of `struct GlRuntime`, with their default member initialisers. -/
structure GlRuntime where
  display : Handle := EGL_NO_DISPLAY
  surface : Handle := EGL_NO_SURFACE
  context : Handle := EGL_NO_CONTEXT
  config : Handle := none
  deriving DecidableEq, Repr

/-- The state a call runs in: `gRuntime`, the platform calls made so far in
the order they were made, and the versions `InitializeContextLocked` was
entered with, in order. -/
structure World where
  rt : GlRuntime := {}
  trace : List Ev := []
  attempts : List Int := []
  deriving DecidableEq, Repr

/-- The state at process start: `gRuntime` default-initialised, no call made. -/
def World.initial : World := {}

/-- Append one platform call to the trace. -/
def World.emit (w : World) (e : Ev) : World := { w with trace := w.trace ++ [e] }

/-! ## Platform calls -/

def eglGetDisplay (drv : Driver) (w : World) : Handle × World :=
  let r := drv.eglGetDisplay w.trace
  (r, w.emit (Ev.eglGetDisplay r))

def eglInitialize (drv : Driver) (display : Handle) (w : World) : Bool × World :=
  let r := drv.eglInitialize w.trace display
  (r, w.emit (Ev.eglInitialize display r))

def eglBindAPI (w : World) : World := w.emit Ev.eglBindAPI

/-- The call `eglChooseConfig(display, attribs, &config, 1, &numConfigs)`:
its return value and the contents of `config` and `numConfigs` after it
(both start as null and 0, so a driver that writes nothing answers
`(_, none, 0)`).  `es3` is the one entry of `attribs` that varies,
`glVersion >= 3`. -/
def eglChooseConfig (drv : Driver) (display : Handle) (es3 : Bool) (w : World) :
    (Bool × Handle × Int) × World :=
  let r := drv.eglChooseConfig w.trace display es3
  let n := toInt32 r.2.2
  ((r.1, r.2.1, n), w.emit (Ev.eglChooseConfig display es3 r.1 r.2.1 n))

def eglCreatePbufferSurface (drv : Driver) (display config : Handle) (w : World) :
    Handle × World :=
  let r := drv.eglCreatePbufferSurface w.trace display config
  (r, w.emit (Ev.eglCreatePbufferSurface display config r))

def eglCreateContext (drv : Driver) (display config : Handle) (glVersion : Int) (w : World) :
    Handle × World :=
  let r := drv.eglCreateContext w.trace display config glVersion
  (r, w.emit (Ev.eglCreateContext display config glVersion r))

def eglDestroySurface (display surface : Handle) (w : World) : World :=
  w.emit (Ev.eglDestroySurface display surface)

def eglMakeCurrent (drv : Driver) (display draw read context : Handle) (w : World) :
    Bool × World :=
  let r := drv.eglMakeCurrent w.trace display draw read context
  (r, w.emit (Ev.eglMakeCurrent display draw read context r))

/-! ## Context manager -/

/-- Lines 66-104 of `InitializeContextLocked`: from `eglBindAPI` to the end. -/
def InitializeContextLocked.configure (drv : Driver) (glVersion : Int) (w : World) :
    Bool × World :=
  let w1 := eglBindAPI w
  let r := eglChooseConfig drv w1.rt.display (decide (glVersion ≥ 3)) w1
  let config := r.1.2.1
  let numConfigs := r.1.2.2
  let w2 := r.2
  if !r.1.1 || decide (numConfigs ≤ 0) then (false, w2)
  else
    let s := eglCreatePbufferSurface drv w2.rt.display config w2
    let surface := s.1
    let w3 := s.2
    if surface = EGL_NO_SURFACE then (false, w3)
    else
      let c := eglCreateContext drv w3.rt.display config glVersion w3
      let context := c.1
      let w4 := c.2
      if context = EGL_NO_CONTEXT then
        (false, eglDestroySurface w4.rt.display surface w4)
      else
        (true, { w4 with rt := { w4.rt with config := config, surface := surface,
                                            context := context } })

/-- `bool InitializeContextLocked(int glVersion)`. -/
def InitializeContextLocked (drv : Driver) (glVersion : Int) (w : World) : Bool × World :=
  let w0 : World := { w with attempts := w.attempts ++ [glVersion] }
  if w0.rt.display = EGL_NO_DISPLAY then
    let d := eglGetDisplay drv w0
    let w1 : World := { d.2 with rt := { d.2.rt with display := d.1 } }
    if w1.rt.display = EGL_NO_DISPLAY then (false, w1)
    else
      let i := eglInitialize drv w1.rt.display w1
      if !i.1 then (false, i.2)
      else InitializeContextLocked.configure drv glVersion i.2
  else InitializeContextLocked.configure drv glVersion w0

/-- Lines 116-120 of `EnsureGlContext`: make the stored context current. -/
def EnsureGlContext.makeCurrent (drv : Driver) (w : World) : Bool × World :=
  let m := eglMakeCurrent drv w.rt.display w.rt.surface w.rt.surface w.rt.context w
  if !m.1 then (false, m.2) else (true, m.2)

/-- `bool EnsureGlContext()`. -/
def EnsureGlContext (drv : Driver) (w : World) : Bool × World :=
  if w.rt.context = EGL_NO_CONTEXT ∨ w.rt.surface = EGL_NO_SURFACE then
    let i3 := InitializeContextLocked drv 3 w
    if !i3.1 then
      let i2 := InitializeContextLocked drv 2 i3.2
      if !i2.1 then (false, i2.2)
      else EnsureGlContext.makeCurrent drv i2.2
    else EnsureGlContext.makeCurrent drv i3.2
  else EnsureGlContext.makeCurrent drv w

/-! ## Further platform calls -/

def glGetString (drv : Driver) (name : GLenum) (w : World) : CString × World :=
  let r := drv.glGetString w.trace name
  (r, w.emit (Ev.glGetString name r))

def glGetStringi (drv : Driver) (name : GLenum) (index : Nat) (w : World) : CString × World :=
  let r := drv.glGetStringi w.trace name index
  (r, w.emit (Ev.glGetStringi name index r))

/-- The call `glGetIntegerv(pname, &x)` for a `GLint x` holding `init`: the
value of `x` after the call.  The driver either writes a value or leaves `x`
as it was.  For `GLint freeMem[4]` this is the element `freeMem[0]`, the only
one the program reads. -/
def glGetIntegerv (drv : Driver) (pname : GLenum) (init : Int) (w : World) : Int × World :=
  let r := (drv.glGetIntegerv w.trace pname).map toInt32
  (r.getD init, w.emit (Ev.glGetIntegerv pname r))

def glGetError (drv : Driver) (w : World) : GLerror × World :=
  let r := drv.glGetError w.trace
  (r, w.emit (Ev.glGetError r))

/-- The call `eglGetProcAddress(procname)`: whether the pointer is non-null. -/
def eglGetProcAddress (drv : Driver) (procname : List Char) (w : World) : Bool × World :=
  let r := drv.eglGetProcAddress w.trace procname
  (r, w.emit (Ev.eglGetProcAddress procname r))

/-- The call `eglGetConfigAttrib(display, config, attr, &x)` for an `EGLint x`
holding `init`: the value of `x` after the call. -/
def eglGetConfigAttrib (drv : Driver) (display config : Handle) (attr : EGLattrib) (init : Int)
    (w : World) : Int × World :=
  let r := (drv.eglGetConfigAttrib w.trace display config attr).map toInt32
  (r.getD init, w.emit (Ev.eglGetConfigAttrib display config attr r))

def eglQueryString (drv : Driver) (display : Handle) (name : EGLattrib) (w : World) :
    CString × World :=
  let r := drv.eglQueryString w.trace display name
  (r, w.emit (Ev.eglQueryString display name r))

/-- The call `std::chrono::steady_clock::now()`, in nanoseconds. -/
def steadyClockNow (drv : Driver) (w : World) : Nat × World :=
  let r := drv.steadyClockNow w.trace
  (r, w.emit (Ev.steadyClockNow r))

def dlopen (drv : Driver) (filename : List Char) (w : World) : Handle × World :=
  let r := drv.dlopen w.trace filename
  (r, w.emit (Ev.dlopen filename r))

/-- The call `dlsym(handle, symbol)`: whether the pointer is non-null. -/
def dlsym (drv : Driver) (handle : Handle) (symbol : List Char) (w : World) : Bool × World :=
  let r := drv.dlsym w.trace handle symbol
  (r, w.emit (Ev.dlsym handle symbol r))

/-- The call `enumerate(&version)` through the resolved pointer, for a
`uint32_t version` holding 0: the `VkResult` and the value of `version` after
the call. -/
def vkEnumerateInstanceVersion (drv : Driver) (w : World) : (VkResult × Nat) × World :=
  let r := drv.vkEnumerateInstanceVersion w.trace
  let version := r.2.map (fun x => x % 4294967296)
  ((r.1, version.getD 0), w.emit (Ev.vkEnumerateInstanceVersion r.1 version))

def dlclose (handle : Handle) (w : World) : World := w.emit (Ev.dlclose handle)

/-! ## Strings -/

/-- The function `isspace` of the C locale, which `operator>>` skips by. -/
def isspace (c : Char) : Bool :=
  c = ' ' || c = '\t' || c = '\n' || c = '\x0b' || c = '\x0c' || c = '\r'

/-- The loop `while (stream >> segment) extensions.push_back(segment)`, one
character at a time: `segment` is the run being read, `extensions` the runs
pushed so far. -/
def splitWhitespace.scan : List Char → List Char → List (List Char) → List (List Char)
  | [], segment, extensions => if segment = [] then extensions else extensions ++ [segment]
  | c :: rest, segment, extensions =>
    if isspace c then
      if segment = [] then splitWhitespace.scan rest [] extensions
      else splitWhitespace.scan rest [] (extensions ++ [segment])
    else splitWhitespace.scan rest (segment ++ [c]) extensions

/-- The whitespace-separated segments `operator>>` extracts from `raw`. -/
def splitWhitespace (raw : List Char) : List (List Char) := splitWhitespace.scan raw [] []

/-- The loop of `QueryGpuMemory` that builds `joined`: every entry followed
by one space. -/
def joinExtensions (extensions : List (List Char)) : List Char :=
  extensions.foldl (fun joined entry => joined ++ entry ++ [' ']) []

/-- Search for `needle` in what is left of the haystack, `pos` characters in. -/
def find.go (needle : List Char) : List Char → Nat → Option Nat
  | [], pos => if needle = [] then some pos else none
  | c :: rest, pos =>
    if needle.isPrefixOf (c :: rest) then some pos else find.go needle rest (pos + 1)

/-- The call `haystack.find(needle)` of `std::string`: the first position at
which `needle` occurs, `none` for `npos`. -/
def find (haystack needle : List Char) : Option Nat := find.go needle haystack 0

/-! ## Queries -/

/-- `std::string QueryGlString(GLenum token)`. -/
def QueryGlString (drv : Driver) (token : GLenum) (w : World) : List Char × World :=
  let e := EnsureGlContext drv w
  if !e.1 then ([], e.2)
  else
    let value := glGetString drv token e.2
    match value.1 with
    | none => ([], value.2)
    | some s => (s, value.2)

/-- The loop `for (index = 0; index < count; ++index)` of `QueryExtensions`,
with `remaining = count - index`. -/
def QueryExtensions.loop (drv : Driver) :
    Nat → Nat → List (List Char) → World → List (List Char) × World
  | 0, _, extensions, w => (extensions, w)
  | remaining + 1, index, extensions, w =>
    let name := glGetStringi drv GLenum.GL_EXTENSIONS index w
    match name.1 with
    | some s => QueryExtensions.loop drv remaining (index + 1) (extensions ++ [s]) name.2
    | none => QueryExtensions.loop drv remaining (index + 1) extensions name.2

/-- `std::vector<std::string> QueryExtensions()`. -/
def QueryExtensions (drv : Driver) (w : World) : List (List Char) × World :=
  let e := EnsureGlContext drv w
  if !e.1 then ([], e.2)
  else
    let extStr := glGetString drv GLenum.GL_EXTENSIONS e.2
    match extStr.1 with
    | some (c :: raw) => (splitWhitespace (c :: raw), extStr.2)
    | _ =>
      let count := glGetIntegerv drv GLenum.GL_NUM_EXTENSIONS 0 extStr.2
      let glGetStringiPtr := eglGetProcAddress drv "glGetStringi".toList count.2
      if !glGetStringiPtr.1 || decide (count.1 ≤ 0) then ([], glGetStringiPtr.2)
      else QueryExtensions.loop drv count.1.toNat 0 [] glGetStringiPtr.2

/-- `std::array<jint, 6> QueryEglConfig()`. -/
def QueryEglConfig (drv : Driver) (w : World) : List Int × World :=
  let e := EnsureGlContext drv w
  if !e.1 || decide (e.2.rt.config = none) then ([0, 0, 0, 0, 0, 0], e.2)
  else
    let d := e.2.rt.display
    let c := e.2.rt.config
    let red := eglGetConfigAttrib drv d c EGLattrib.EGL_RED_SIZE 0 e.2
    let green := eglGetConfigAttrib drv d c EGLattrib.EGL_GREEN_SIZE 0 red.2
    let blue := eglGetConfigAttrib drv d c EGLattrib.EGL_BLUE_SIZE 0 green.2
    let alpha := eglGetConfigAttrib drv d c EGLattrib.EGL_ALPHA_SIZE 0 blue.2
    let depth := eglGetConfigAttrib drv d c EGLattrib.EGL_DEPTH_SIZE 0 alpha.2
    let stencil := eglGetConfigAttrib drv d c EGLattrib.EGL_STENCIL_SIZE 0 depth.2
    ([red.1, green.1, blue.1, alpha.1, depth.1, stencil.1], stencil.2)

/-- The marker of the first vendor's memory extension. -/
def kNvxMarker : List Char := "GL_NVX_gpu_memory_info".toList

/-- The marker of the second vendor's memory extension. -/
def kAtiMarker : List Char := "GL_ATI_meminfo".toList

/-- Lines 214-222 of `QueryGpuMemory`: the second vendor's path and the final
`return values`, reached with `values` still `{0, 0, 0}`. -/
def QueryGpuMemory.ati (drv : Driver) (joined : List Char) (w : World) :
    (Int × Int × Int) × World :=
  if find joined kAtiMarker ≠ none then
    let freeMem := glGetIntegerv drv GLenum.GL_TEXTURE_FREE_MEMORY_ATI 0 w
    if freeMem.1 > 0 then ((freeMem.1, 0, freeMem.1), freeMem.2)
    else ((0, 0, 0), freeMem.2)
  else ((0, 0, 0), w)

/-- `std::array<jint, 3> QueryGpuMemory()`, as (total, used, free) =
(`values[0]`, `values[1]`, `values[2]`). -/
def QueryGpuMemory (drv : Driver) (w : World) : (Int × Int × Int) × World :=
  let e := EnsureGlContext drv w
  if !e.1 then ((0, 0, 0), e.2)
  else
    let extensions := QueryExtensions drv e.2
    let joined := joinExtensions extensions.1
    if find joined kNvxMarker ≠ none then
      let total := glGetIntegerv drv GLenum.GL_GPU_MEMORY_INFO_TOTAL_AVAILABLE_MEMORY_NVX 0
        extensions.2
      let current := glGetIntegerv drv GLenum.GL_GPU_MEMORY_INFO_CURRENT_AVAILABLE_VIDMEM_NVX 0
        total.2
      if total.1 > 0 then
        let values2 := if current.1 > 0 then current.1 else 0
        let values1 := toInt32 (total.1 - values2)
        ((total.1, values1, values2), current.2)
      else QueryGpuMemory.ati drv joined current.2
    else QueryGpuMemory.ati drv joined extensions.2

/-- Modelled from the spec: the macro `VK_MAKE_VERSION` comes from
`vulkan/vulkan.h`, which is not among the sources; it packs a version as
major * 2^22 + minor * 2^12 + patch, so that the minimum threshold
`VK_MAKE_VERSION(1, 0, 0)` is 4194304. -/
def VK_MAKE_VERSION (major minor patch : Nat) : Nat :=
  ((major <<< 22) ||| (minor <<< 12) ||| patch) % 4294967296

/-- `jboolean CheckVulkanSupport()`. -/
def CheckVulkanSupport (drv : Driver) (w : World) : Bool × World :=
  let first := dlopen drv "libvulkan.so".toList w
  let handle := if first.1 = none then dlopen drv "libvulkan.so.1".toList first.2 else first
  if handle.1 = none then (false, handle.2)
  else
    let enumerate := dlsym drv handle.1 "vkEnumerateInstanceVersion".toList handle.2
    let supported : Bool × World :=
      if enumerate.1 then
        let result := vkEnumerateInstanceVersion drv enumerate.2
        (decide (result.1.1 = VkResult.VK_SUCCESS) &&
          decide (result.1.2 ≥ VK_MAKE_VERSION 1 0 0), result.2)
      else (true, enumerate.2)
    (supported.1, dlclose handle.1 supported.2)

/-- The loop of `RunMicroBenchmark`, with `remaining = iterations - i`. -/
def RunMicroBenchmark.loop : Nat → Nat → World → World
  | 0, _, w => w
  | remaining + 1, i, w =>
    RunMicroBenchmark.loop remaining (i + 1)
      (((w.emit (Ev.glClearColor i)).emit Ev.glClear).emit Ev.glFinish)

/-- `double RunMicroBenchmark()`: the milliseconds per iteration as an exact
rational (the rounding of `double` is not modelled; on the failure path the
literal `0.0` is returned). -/
def RunMicroBenchmark (drv : Driver) (w : World) : ℚ × World :=
  let e := EnsureGlContext drv w
  if !e.1 then (0, e.2)
  else
    let start := steadyClockNow drv e.2
    let w1 := RunMicroBenchmark.loop 12 0 start.2
    let stop := steadyClockNow drv w1
    ((((stop.1 : ℚ) - (start.1 : ℚ)) / 1000000) / 12, stop.2)

/-- The native method `nativeGetEglVendor`: the string handed to
`ToJavaString`. -/
def Java_com_protosdk_sdk_fingerprint_nativebridge_GpuDetectionBridge_nativeGetEglVendor
    (drv : Driver) (w : World) : List Char × World :=
  let e := EnsureGlContext drv w
  if !e.1 || decide (e.2.rt.display = EGL_NO_DISPLAY) then ([], e.2)
  else
    let vendor := eglQueryString drv e.2.rt.display EGLattrib.EGL_VENDOR e.2
    match vendor.1 with
    | none => ([], vendor.2)
    | some s => (s, vendor.2)

/-- The native method `nativeGetMaxTextureSize`. -/
def Java_com_protosdk_sdk_fingerprint_nativebridge_GpuDetectionBridge_nativeGetMaxTextureSize
    (drv : Driver) (w : World) : Int × World :=
  let e := EnsureGlContext drv w
  if !e.1 then (0, e.2)
  else glGetIntegerv drv GLenum.GL_MAX_TEXTURE_SIZE 0 e.2

/-- The native method `nativeGetComputeWorkGroupInvocations`. -/
def Java_com_protosdk_sdk_fingerprint_nativebridge_GpuDetectionBridge_nativeGetComputeWorkGroupInvocations
    (drv : Driver) (w : World) : Int × World :=
  let e := EnsureGlContext drv w
  if !e.1 then (0, e.2)
  else
    let value := glGetIntegerv drv GLenum.GL_MAX_COMPUTE_WORK_GROUP_INVOCATIONS 0 e.2
    let error := glGetError drv value.2
    if error.1 ≠ GLerror.GL_NO_ERROR then (0, error.2)
    else (value.1, error.2)

/-- The world after `n` successive calls of `EnsureGlContext`. -/
def EnsureGlContext.calls (drv : Driver) : Nat → World → World
  | 0, w => w
  | n + 1, w => EnsureGlContext.calls drv n (EnsureGlContext drv w).2

/-- Whether a platform call is an `eglMakeCurrent`. -/
def Ev.isMakeCurrent : Ev → Bool
  | Ev.eglMakeCurrent _ _ _ _ _ => true
  | _ => false

/-- Whether a platform call is one of those `InitializeContextLocked` makes. -/
def Ev.isInitCall : Ev → Bool
  | Ev.eglGetDisplay _ => true
  | Ev.eglInitialize _ _ => true
  | Ev.eglBindAPI => true
  | Ev.eglChooseConfig _ _ _ _ _ => true
  | Ev.eglCreatePbufferSurface _ _ _ => true
  | Ev.eglCreateContext _ _ _ _ => true
  | Ev.eglDestroySurface _ _ => true
  | _ => false

/-- The world `w'` comes after `w`: its trace is that of `w` followed by
calls that all satisfy `P`. -/
def World.ExtendsBy (P : Ev → Prop) (w w' : World) : Prop :=
  ∃ new : List Ev, w'.trace = w.trace ++ new ∧ ∀ e ∈ new, P e

/-- All four runtime fields are unset. -/
def GlRuntime.allUnset (rt : GlRuntime) : Prop :=
  rt.display = EGL_NO_DISPLAY ∧ rt.surface = EGL_NO_SURFACE ∧ rt.context = EGL_NO_CONTEXT ∧
    rt.config = none

/-- All four runtime fields are set. -/
def GlRuntime.allSet (rt : GlRuntime) : Prop :=
  rt.display ≠ EGL_NO_DISPLAY ∧ rt.surface ≠ EGL_NO_SURFACE ∧ rt.context ≠ EGL_NO_CONTEXT ∧
    rt.config ≠ none

/-- The runtime's config, surface and context are those of one initialization
attempt: somewhere in the trace, `eglChooseConfig` on the runtime's display
succeeded with a positive count and reported the runtime's config, and the
next two calls created the runtime's surface and the runtime's context for
that display and config. -/
def World.StoredByOneAttempt (w : World) : Prop :=
  ∃ (pre post : List Ev) (es3 : Bool) (numConfigs glVersion : Int),
    0 < numConfigs ∧
    w.trace = pre ++
      [Ev.eglChooseConfig w.rt.display es3 true w.rt.config numConfigs,
       Ev.eglCreatePbufferSurface w.rt.display w.rt.config w.rt.surface,
       Ev.eglCreateContext w.rt.display w.rt.config glVersion w.rt.context] ++ post

/-- The invariant of `gRuntime`: surface, context and config are all unset
(the display may be bound already), or display, surface and context are set
and surface, context and config come from one successful attempt. -/
def World.RuntimeInv (w : World) : Prop :=
  (w.rt.surface = EGL_NO_SURFACE ∧ w.rt.context = EGL_NO_CONTEXT ∧ w.rt.config = none) ∨
  (w.rt.display ≠ EGL_NO_DISPLAY ∧ w.rt.surface ≠ EGL_NO_SURFACE ∧
    w.rt.context ≠ EGL_NO_CONTEXT ∧ w.StoredByOneAttempt)

/-- Whether a platform call is a `dlopen` that returned a handle. -/
def Ev.isOpened : Ev → Bool
  | Ev.dlopen _ (some _) => true
  | _ => false

/-- Whether a platform call is a `dlclose`. -/
def Ev.isClosed : Ev → Bool
  | Ev.dlclose _ => true
  | _ => false

/-- The maximal whitespace-free runs of a string in left-to-right order: the
pieces between its whitespace characters, without the empty ones. -/
def whitespaceFreeRuns (raw : List Char) : List (List Char) :=
  (raw.splitOnP isspace).filter (fun run => decide (run ≠ []))

/-- The calls `glGetStringi(GL_EXTENSIONS, index)`, `glGetStringi(GL_EXTENSIONS,
index + 1)`, ... with the given answers. -/
def indexedCalls (index : Nat) (names : List CString) : List Ev :=
  List.zipWith (fun i r => Ev.glGetStringi GLenum.GL_EXTENSIONS i r)
    (List.range' index names.length) names

/-- Whether a platform call is an `eglCreatePbufferSurface` that returned a
surface. -/
def Ev.isSurfaceCreated : Ev → Bool
  | Ev.eglCreatePbufferSurface _ _ surface => surface.isSome
  | _ => false

/-- Whether a platform call is an `eglDestroySurface`. -/
def Ev.isSurfaceDestroyed : Ev → Bool
  | Ev.eglDestroySurface _ _ => true
  | _ => false

/-- Whether a platform call is an `eglCreateContext` that returned a context. -/
def Ev.isContextCreated : Ev → Bool
  | Ev.eglCreateContext _ _ _ context => context.isSome
  | _ => false

/-- The surfaces and contexts created so far against what the runtime holds:
surfaces created minus surfaces destroyed is 1 if the runtime holds a surface
and 0 otherwise, contexts created is 1 if the runtime holds a context and 0
otherwise. -/
def World.ResourceBalance (w : World) : Prop :=
  w.trace.countP Ev.isSurfaceCreated =
    w.trace.countP Ev.isSurfaceDestroyed + (if w.rt.surface ≠ EGL_NO_SURFACE then 1 else 0) ∧
  w.trace.countP Ev.isContextCreated = (if w.rt.context ≠ EGL_NO_CONTEXT then 1 else 0)

/-- What an initialization attempt with result `ok` may add to the trace: a
failed attempt destroyed every surface it created and created no context; a
successful one created one surface and one context and destroyed nothing. -/
def AttemptOutcome (ok : Bool) (new : List Ev) : Prop :=
  (ok = false →
    new.countP Ev.isSurfaceCreated = new.countP Ev.isSurfaceDestroyed ∧
    new.countP Ev.isContextCreated = 0 ∧
    ∀ (d c s : Handle), s ≠ EGL_NO_SURFACE → Ev.eglCreatePbufferSurface d c s ∈ new →
      Ev.eglDestroySurface d s ∈ new) ∧
  (ok = true →
    new.countP Ev.isSurfaceCreated = 1 ∧ new.countP Ev.isSurfaceDestroyed = 0 ∧
    new.countP Ev.isContextCreated = 1)

/-- The balance of resources together with the pairing of surface and context:
the runtime holds a surface exactly when it holds a context. -/
def World.ResourceInv (w : World) : Prop :=
  w.ResourceBalance ∧ (w.rt.surface = EGL_NO_SURFACE ↔ w.rt.context = EGL_NO_CONTEXT)

/-! ## Payload decoding (`gpu_checker.cpp` and `emulator_checker.cpp`) -/

/-- The part of the JNI environment the decoders use.  A Java string is
given by the bytes of its modified UTF-8 form; `GetStringUTFChars` hands out
that form as a C string, or null when it cannot. -/
structure JNIEnv where
  GetStringUTFChars : List Nat → Option (List Nat)

/-- The bytes of a C string in memory up to its terminating NUL, as `strlen`,
`c_str()` and `NewStringUTF` read them. -/
def cstr (bytes : List Nat) : List Nat := bytes.takeWhile (fun b => b ≠ 0)

/-- The 32 bits of a `jint` in two's complement, as a natural number. -/
def jintBits (x : Int) : Nat := (x % 4294967296).toNat

/-- The byte stored into `decoded[i]`:
`(buffer[i] ^ static_cast<uint8_t>(keyChars[i % keyLength])) & 0xFF`. -/
def decodedByte (buffer : List Int) (keyChars : List Nat) (keyLength i : Nat) : Nat :=
  (jintBits (buffer.getD i 0) ^^^ (keyChars.getD (i % keyLength) 0 % 256)) &&& 0xFF

/-- The loop `for (jsize i = 0; i < payloadSize; ++i)` of the decoders, with
`remaining = payloadSize - i`: the bytes `decoded[i]`, `decoded[i+1]`, ... -/
def DecodePayload.loop (buffer : List Int) (keyChars : List Nat) (keyLength : Nat) :
    Nat → Nat → List Nat
  | 0, _ => []
  | remaining + 1, i =>
    decodedByte buffer keyChars keyLength i ::
      DecodePayload.loop buffer keyChars keyLength remaining (i + 1)

/-- `jstring DecodePayload(JNIEnv* env, jintArray payload, jstring key)` of
`gpu_checker.cpp`: the bytes of the C string handed to `NewStringUTF`.  A null
`payload` or `key` is `none`. -/
def DecodePayload (env : JNIEnv) (payload : Option (List Int)) (key : Option (List Nat)) :
    List Nat :=
  match payload, key with
  | some buffer, some javaKey =>
    let payloadSize := buffer.length
    if payloadSize ≤ 0 then []
    else
      match env.GetStringUTFChars javaKey with
      | none => []
      | some keyChars =>
        let keyLength := (cstr keyChars).length
        if keyLength = 0 then []
        else cstr (DecodePayload.loop buffer keyChars keyLength payloadSize 0)
  | _, _ => []

/-- The native method `nativeDecodeString` of `emulator_checker.cpp`: the bytes
of the C string handed to `NewStringUTF`; `none` when `strlen` is applied to a
null `keyChars`, which this function does not check for. -/
def Java_com_protosdk_sdk_fingerprint_nativebridge_EmulatorDetectionBridge_nativeDecodeString
    (env : JNIEnv) (payload : Option (List Int)) (key : Option (List Nat)) :
    Option (List Nat) :=
  match payload, key with
  | some buffer, some javaKey =>
    let payloadSize := buffer.length
    if payloadSize ≤ 0 then some []
    else
      match env.GetStringUTFChars javaKey with
      | none => none
      | some keyChars =>
        let keyLength := (cstr keyChars).length
        if keyLength = 0 then some []
        else some (cstr (DecodePayload.loop buffer keyChars keyLength payloadSize 0))
  | _, _ => some []

/-! ## Sensor check (`emulator_checker.cpp`) -/

/-- The type of a sensor and of the events it delivers. -/
inductive SensorType where
  | ASENSOR_TYPE_ACCELEROMETER
  | ASENSOR_TYPE_GYROSCOPE
  | ASENSOR_TYPE_MAGNETIC_FIELD
  | other (code : Int)
  deriving DecidableEq, Repr

/-- The fields of an `ASensorEvent` the program reads: `type` and
`vector.v[0..2]`.  A `float` is modelled by the rational number it stands
for: comparisons are exact, and the one subtraction of the program is taken
without rounding. -/
structure ASensorEvent where
  type : SensorType
  v : List ℚ
  deriving DecidableEq, Repr

/-- The fields of `struct SensorStats`, with their default member initialisers. -/
structure SensorStats where
  active : Bool := false
  samples : Int := 0
  minVals : List ℚ := [0, 0, 0]
  maxVals : List ℚ := [0, 0, 0]
  deriving DecidableEq, Repr

/-- `void updateStats(SensorStats& stats, const ASensorEvent& event)`. -/
def updateStats (stats : SensorStats) (event : ASensorEvent) : SensorStats :=
  let updated : SensorStats :=
    if !stats.active then
      { active := true, samples := 0, minVals := event.v.take 3, maxVals := event.v.take 3 }
    else
      { stats with
        minVals := List.zipWith (fun value held => if value < held then value else held)
          event.v stats.minVals
        maxVals := List.zipWith (fun value held => if value > held then value else held)
          event.v stats.maxVals }
  { updated with samples := updated.samples + 1 }

/-- What the sensor service gives `nativeCheckSensors`: whether the manager,
the looper and the event queue exist, which of the three sensors exist, and
the events `ASensorEventQueue_getEvents` delivered in the successive rounds of
the polling loop until the clock reached the deadline (a round with
`count <= 0` is an empty batch). -/
structure SensorService where
  manager : Bool
  looper : Bool
  queue : Bool
  defaultSensor : SensorType → Bool
  batches : List (List ASensorEvent)

/-- The array `sensorTypes`. -/
def sensorTypes : List SensorType :=
  [SensorType.ASENSOR_TYPE_ACCELEROMETER, SensorType.ASENSOR_TYPE_GYROSCOPE,
   SensorType.ASENSOR_TYPE_MAGNETIC_FIELD]

/-- The state the loops of `nativeCheckSensors` work on: `stats[3]` and the
map `typeToIndex`, as the list of its entries. -/
structure SensorState where
  stats : List SensorStats := [{}, {}, {}]
  typeToIndex : List (SensorType × Nat) := []
  deriving DecidableEq, Repr

/-- The enabling loop `for (int i = 0; i < 3; ++i)` (lines 247-257), from
index `i` on. -/
def enableSensors (service : SensorService) : List SensorType → Nat → SensorState → SensorState
  | [], _, state => state
  | sensorType :: rest, i, state =>
    if !service.defaultSensor sensorType then enableSensors service rest (i + 1) state
    else
      enableSensors service rest (i + 1)
        { stats := state.stats.modify (fun s => { s with active := true }) i
          typeToIndex := state.typeToIndex ++ [(sensorType, i)] }

/-- The loop over the events of one round (lines 269-276). -/
def handleEvents : List ASensorEvent → SensorState → SensorState
  | [], state => state
  | event :: rest, state =>
    match state.typeToIndex.lookup event.type with
    | none => handleEvents rest state
    | some index =>
      handleEvents rest
        { state with stats := state.stats.modify (fun s => updateStats s event) index }

/-- The polling loop (lines 262-277), one batch per round. -/
def pollEvents : List (List ASensorEvent) → SensorState → SensorState
  | [], state => state
  | events :: rounds, state => pollEvents rounds (handleEvents events state)

/-- The constant `kVarianceThreshold`. -/
def kVarianceThreshold : ℚ := 1 / 20

/-- The test of lines 292-298: some axis has `maxVals - minVals` at or above the
threshold. -/
def isVarying (sensorStats : SensorStats) : Bool :=
  (List.zipWith (fun hi lo => decide (hi - lo ≥ kVarianceThreshold))
    sensorStats.maxVals sensorStats.minVals).any id

/-- The counting loop over `typeToIndex` (lines 288-300): `(sampled, varying)`. -/
def countSensors (state : SensorState) : List (SensorType × Nat) → Int × Int → Int × Int
  | [], counts => counts
  | entry :: rest, counts =>
    let sensorStats := state.stats.getD entry.2 {}
    if sensorStats.samples ≥ 3 then
      countSensors state rest
        (counts.1 + 1, if isVarying sensorStats then counts.2 + 1 else counts.2)
    else countSensors state rest counts

/-- The state after the polling loop of `nativeCheckSensors`. -/
def sensorStateAfterPolling (service : SensorService) : SensorState :=
  pollEvents service.batches (enableSensors service sensorTypes 0 {})

/-- The native method `nativeCheckSensors`: the contents of the returned
array, empty when the manager, the looper or the queue is missing, otherwise
`[sampled, varying]`. -/
def Java_com_protosdk_sdk_fingerprint_nativebridge_EmulatorDetectionBridge_nativeCheckSensors
    (service : SensorService) : List Int :=
  if !service.manager then []
  else if !service.looper then []
  else if !service.queue then []
  else
    let state := sensorStateAfterPolling service
    let counts := countSensors state state.typeToIndex (0, 0)
    [counts.1, counts.2]

/-! ## Sample drivers -/

/-- A driver on which everything succeeds: display 1, config 2, surface 3,
context 4. -/
def Driver.ready : Driver where
  eglGetDisplay := fun _ => some 1
  eglInitialize := fun _ _ => true
  eglChooseConfig := fun _ _ _ => (true, some 2, 1)
  eglCreatePbufferSurface := fun _ _ _ => some 3
  eglCreateContext := fun _ _ _ _ => some 4
  eglMakeCurrent := fun _ _ _ _ _ => true
  eglGetConfigAttrib := fun _ _ _ _ => some 8
  eglQueryString := fun _ _ _ => some "Android".toList
  eglGetProcAddress := fun _ _ => true
  glGetString := fun _ _ => some "GL_OES_texture_float GL_NVX_gpu_memory_info".toList
  glGetStringi := fun _ _ _ => none
  glGetIntegerv := fun _ _ => some 0
  glGetError := fun _ => GLerror.GL_NO_ERROR
  steadyClockNow := fun tr => 1000000 * tr.length
  dlopen := fun _ _ => some 7
  dlsym := fun _ _ _ => true
  vkEnumerateInstanceVersion := fun _ => (VkResult.VK_SUCCESS, some 4194304)

/-- A driver with a display but no matching configuration at any version. -/
def Driver.noConfig : Driver :=
  { Driver.ready with eglChooseConfig := fun _ _ _ => (false, none, 0) }

/-- A driver on which the context succeeds, the legacy extension string is
`extensions`, and the three vendor memory counters are as given (`none`: the
driver leaves the variable untouched). -/
def Driver.memory (extensions : List Char) (total current free : Option Int) : Driver :=
  { Driver.ready with
    glGetString := fun _ name =>
      match name with
      | GLenum.GL_EXTENSIONS => some extensions
      | _ => none
    glGetIntegerv := fun _ pname =>
      match pname with
      | GLenum.GL_GPU_MEMORY_INFO_TOTAL_AVAILABLE_MEMORY_NVX => total
      | GLenum.GL_GPU_MEMORY_INFO_CURRENT_AVAILABLE_VIDMEM_NVX => current
      | GLenum.GL_TEXTURE_FREE_MEMORY_ATI => free
      | _ => some 0 }

/-- A driver on which the context succeeds, every `glGetIntegerv` answers
`value` and `glGetError` answers `error`. -/
def Driver.compute (value : Option Int) (error : GLerror) : Driver :=
  { Driver.ready with
    glGetIntegerv := fun _ _ => value
    glGetError := fun _ => error }

/-- A loader that answers `first` for `libvulkan.so` and `second` for any other
name, resolves symbols or not as `resolved` says, and whose version query
answers `result` and writes `version`. -/
def Driver.vulkan (first second : Handle) (resolved : Bool) (result : VkResult)
    (version : Option Nat) : Driver :=
  { Driver.ready with
    dlopen := fun _ filename => if filename = "libvulkan.so".toList then first else second
    dlsym := fun _ _ _ => resolved
    vkEnumerateInstanceVersion := fun _ => (result, version) }

/-- A driver on which the context succeeds, the legacy extension string is
null, `glGetStringi` resolves and the indexed enumeration has the given
answers. -/
def Driver.indexed (names : List CString) : Driver :=
  { Driver.ready with
    glGetString := fun _ _ => none
    glGetIntegerv := fun _ _ => some (names.length : Int)
    glGetStringi := fun _ _ index => names.getD index none }

/-- A driver whose first `eglGetDisplay` fails and on which everything else,
a later `eglGetDisplay` included, succeeds. -/
def Driver.displayOnRetry : Driver :=
  { Driver.ready with eglGetDisplay := fun tr => if tr.isEmpty then none else some 1 }

/-- A driver without a display. -/
def Driver.noDisplay : Driver :=
  { Driver.ready with eglGetDisplay := fun _ => none }

/-- A driver on which every `eglCreateContext` fails. -/
def Driver.noContext : Driver :=
  { Driver.ready with eglCreateContext := fun _ _ _ _ => none }

/-- A driver on which everything succeeds except `eglMakeCurrent`. -/
def Driver.noMakeCurrent : Driver :=
  { Driver.ready with eglMakeCurrent := fun _ _ _ _ _ => false }

/-- A JNI environment in which `GetStringUTFChars` succeeds. -/
def JNIEnv.ok : JNIEnv where
  GetStringUTFChars := fun javaKey => some javaKey

/-- A device with an accelerometer only, at rest: one round delivers three
events, each with the vector (0, 0, 9.8). -/
def SensorService.atRest : SensorService where
  manager := true
  looper := true
  queue := true
  defaultSensor := fun sensorType => decide (sensorType = SensorType.ASENSOR_TYPE_ACCELEROMETER)
  batches := [[{ type := SensorType.ASENSOR_TYPE_ACCELEROMETER, v := [0, 0, 49 / 5] },
               { type := SensorType.ASENSOR_TYPE_ACCELEROMETER, v := [0, 0, 49 / 5] },
               { type := SensorType.ASENSOR_TYPE_ACCELEROMETER, v := [0, 0, 49 / 5] }]]

/-! ## Lemmas on the context manager -/

theorem emit_rt (w : World) (e : Ev) : (w.emit e).rt = w.rt := rfl

theorem emit_trace (w : World) (e : Ev) : (w.emit e).trace = w.trace ++ [e] := rfl

theorem emit_attempts (w : World) (e : Ev) : (w.emit e).attempts = w.attempts := rfl

/-- With a surface and a context stored, `EnsureGlContext` is one
`eglMakeCurrent` and nothing else. -/
theorem EnsureGlContext_of_ready (drv : Driver) (w : World)
    (hc : w.rt.context ≠ EGL_NO_CONTEXT) (hs : w.rt.surface ≠ EGL_NO_SURFACE) :
    EnsureGlContext drv w =
      (drv.eglMakeCurrent w.trace w.rt.display w.rt.surface w.rt.surface w.rt.context,
       w.emit (Ev.eglMakeCurrent w.rt.display w.rt.surface w.rt.surface w.rt.context
         (drv.eglMakeCurrent w.trace w.rt.display w.rt.surface w.rt.surface w.rt.context))) := by
  unfold EnsureGlContext EnsureGlContext.makeCurrent
  simp only [hc, hs, or_self, if_false, eglMakeCurrent]
  cases drv.eglMakeCurrent w.trace w.rt.display w.rt.surface w.rt.surface w.rt.context <;> rfl

/-- A successful `configure` stores a surface and a context. -/
theorem configure_success (drv : Driver) (v : Int) (w : World)
    (h : (InitializeContextLocked.configure drv v w).1 = true) :
    (InitializeContextLocked.configure drv v w).2.rt.surface ≠ EGL_NO_SURFACE ∧
    (InitializeContextLocked.configure drv v w).2.rt.context ≠ EGL_NO_CONTEXT ∧
    (InitializeContextLocked.configure drv v w).2.rt.display = w.rt.display := by
  unfold InitializeContextLocked.configure at h ⊢
  simp only at h ⊢
  split_ifs at h ⊢ with h1 h2 h3
  exact ⟨h2, h3, rfl⟩

/-- A successful `InitializeContextLocked` stores a display, a surface and a
context. -/
theorem InitializeContextLocked_success (drv : Driver) (v : Int) (w : World)
    (h : (InitializeContextLocked drv v w).1 = true) :
    (InitializeContextLocked drv v w).2.rt.surface ≠ EGL_NO_SURFACE ∧
    (InitializeContextLocked drv v w).2.rt.context ≠ EGL_NO_CONTEXT ∧
    (InitializeContextLocked drv v w).2.rt.display ≠ EGL_NO_DISPLAY := by
  unfold InitializeContextLocked at h ⊢
  simp only at h ⊢
  split_ifs at h ⊢ with h1 h2 h3
  · obtain ⟨a, b, c⟩ := configure_success drv v _ h
    refine ⟨a, b, ?_⟩
    rw [c]
    exact h2
  · obtain ⟨a, b, c⟩ := configure_success drv v _ h
    refine ⟨a, b, ?_⟩
    rw [c]
    exact h1

/-- Repeated calls on a ready runtime: only `eglMakeCurrent` is called. -/
theorem calls_of_ready (drv : Driver) (n : Nat) (w : World)
    (hc : w.rt.context ≠ EGL_NO_CONTEXT) (hs : w.rt.surface ≠ EGL_NO_SURFACE) :
    (EnsureGlContext.calls drv n w).rt = w.rt ∧
    (EnsureGlContext.calls drv n w).attempts = w.attempts ∧
    ∃ new : List Ev, (EnsureGlContext.calls drv n w).trace = w.trace ++ new ∧
      new.length = n ∧
      ∀ e ∈ new, ∃ r : Bool,
        e = Ev.eglMakeCurrent w.rt.display w.rt.surface w.rt.surface w.rt.context r := by
  induction n generalizing w with
  | zero => exact ⟨rfl, rfl, [], by simp [EnsureGlContext.calls], rfl, by simp⟩
  | succ n ih =>
    have hstep := EnsureGlContext_of_ready drv w hc hs
    obtain ⟨h1, h2, new, h3, h4, h5⟩ :=
      ih (EnsureGlContext drv w).2 (by rw [hstep]; exact hc) (by rw [hstep]; exact hs)
    have hrt : (EnsureGlContext drv w).2.rt = w.rt := by rw [hstep]; rfl
    have hat : (EnsureGlContext drv w).2.attempts = w.attempts := by rw [hstep]; rfl
    refine ⟨by simp only [EnsureGlContext.calls]; rw [h1, hrt],
            by simp only [EnsureGlContext.calls]; rw [h2, hat], ?_⟩
    refine ⟨Ev.eglMakeCurrent w.rt.display w.rt.surface w.rt.surface w.rt.context
        (drv.eglMakeCurrent w.trace w.rt.display w.rt.surface w.rt.surface w.rt.context) :: new,
      ?_, by simp [h4], ?_⟩
    · simp only [EnsureGlContext.calls]
      rw [h3, hstep]
      simp [emit_trace]
    · intro e he
      rcases List.mem_cons.mp he with rfl | he
      · exact ⟨_, rfl⟩
      · rw [hrt] at h5
        exact h5 e he

theorem World.ExtendsBy.refl (P : Ev → Prop) (w : World) : World.ExtendsBy P w w :=
  ⟨[], by simp, by simp⟩

theorem World.ExtendsBy.trans {P : Ev → Prop} {w1 w2 w3 : World}
    (h12 : World.ExtendsBy P w1 w2) (h23 : World.ExtendsBy P w2 w3) :
    World.ExtendsBy P w1 w3 := by
  obtain ⟨n1, e1, p1⟩ := h12
  obtain ⟨n2, e2, p2⟩ := h23
  refine ⟨n1 ++ n2, by rw [e2, e1, List.append_assoc], ?_⟩
  intro e he
  rcases List.mem_append.mp he with h | h
  · exact p1 e h
  · exact p2 e h

theorem World.ExtendsBy.mono {P Q : Ev → Prop} {w1 w2 : World} (hPQ : ∀ e, P e → Q e)
    (h : World.ExtendsBy P w1 w2) : World.ExtendsBy Q w1 w2 := by
  obtain ⟨n, e, p⟩ := h
  exact ⟨n, e, fun x hx => hPQ x (p x hx)⟩

/-- A trace that starts with the trace of `w` extends it by what follows. -/
theorem World.ExtendsBy.of_drop {P : Ev → Prop} {w w' : World}
    (hpre : w.trace <+: w'.trace) (h : ∀ e ∈ w'.trace.drop w.trace.length, P e) :
    World.ExtendsBy P w w' := by
  obtain ⟨t, ht⟩ := hpre
  refine ⟨t, ht.symm, ?_⟩
  rw [← ht, List.drop_left] at h
  exact h

/-- The part of `InitializeContextLocked` from `eglBindAPI` on makes
initialization calls only and enters no attempt. -/
theorem configure_frame (drv : Driver) (v : Int) (w : World) :
    World.ExtendsBy (fun e => e.isInitCall = true) w
      (InitializeContextLocked.configure drv v w).2 ∧
    (InitializeContextLocked.configure drv v w).2.attempts = w.attempts := by
  unfold InitializeContextLocked.configure
  simp only
  split_ifs with h1 h2 h3 <;> refine ⟨?_, rfl⟩ <;> apply World.ExtendsBy.of_drop <;>
    simp [eglBindAPI, eglChooseConfig, eglCreatePbufferSurface, eglCreateContext,
      eglDestroySurface, World.emit, Ev.isInitCall]

/-- One `InitializeContextLocked` makes initialization calls only and logs
exactly its own entry. -/
theorem InitializeContextLocked_frame (drv : Driver) (v : Int) (w : World) :
    World.ExtendsBy (fun e => e.isInitCall = true) w (InitializeContextLocked drv v w).2 ∧
    (InitializeContextLocked drv v w).2.attempts = w.attempts ++ [v] := by
  have pre : ∀ w1 : World, w1.attempts = w.attempts ++ [v] →
      World.ExtendsBy (fun e => e.isInitCall = true) w w1 →
      World.ExtendsBy (fun e => e.isInitCall = true) w
        (InitializeContextLocked.configure drv v w1).2 ∧
      (InitializeContextLocked.configure drv v w1).2.attempts = w.attempts ++ [v] := by
    intro w1 ha he
    obtain ⟨a, b⟩ := configure_frame drv v w1
    exact ⟨he.trans a, b.trans ha⟩
  unfold InitializeContextLocked
  simp only
  split_ifs with h1 h2 h3
  · refine ⟨?_, rfl⟩
    apply World.ExtendsBy.of_drop <;> simp [eglGetDisplay, World.emit, Ev.isInitCall]
  · refine ⟨?_, rfl⟩
    apply World.ExtendsBy.of_drop <;>
      simp [eglGetDisplay, eglInitialize, World.emit, Ev.isInitCall]
  · apply pre _ rfl
    apply World.ExtendsBy.of_drop <;>
      simp [eglGetDisplay, eglInitialize, World.emit, Ev.isInitCall]
  · apply pre _ rfl
    apply World.ExtendsBy.of_drop <;> simp

/-- An initialization call is not an `eglMakeCurrent`. -/
theorem isMakeCurrent_of_isInitCall (e : Ev) (h : e.isInitCall = true) :
    e.isMakeCurrent = false := by
  cases e <;> simp_all [Ev.isInitCall, Ev.isMakeCurrent]

theorem StoredByOneAttempt_of_extends {w w' : World} (h : w.StoredByOneAttempt)
    (hrt : w'.rt = w.rt) (ht : w.trace <+: w'.trace) : w'.StoredByOneAttempt := by
  obtain ⟨pre, post, es3, n, v, hn, htr⟩ := h
  obtain ⟨t, ht⟩ := ht
  refine ⟨pre, post ++ t, es3, n, v, hn, ?_⟩
  rw [hrt, ← ht, htr]
  simp

theorem RuntimeInv_of_extends {w w' : World} (h : w.RuntimeInv)
    (hrt : w'.rt = w.rt) (ht : w.trace <+: w'.trace) : w'.RuntimeInv := by
  rcases h with h | ⟨hd, hs, hc, hst⟩
  · left
    rw [hrt]
    exact h
  · right
    rw [hrt]
    exact ⟨hd, hs, hc, StoredByOneAttempt_of_extends hst hrt ht⟩

theorem configure_fail_rt (drv : Driver) (v : Int) (w : World)
    (h : (InitializeContextLocked.configure drv v w).1 = false) :
    (InitializeContextLocked.configure drv v w).2.rt = w.rt := by
  unfold InitializeContextLocked.configure at h ⊢
  simp only at h ⊢
  split_ifs at h ⊢ with h1 h2 h3 <;> rfl

theorem configure_success_stored (drv : Driver) (v : Int) (w : World)
    (h : (InitializeContextLocked.configure drv v w).1 = true) :
    (InitializeContextLocked.configure drv v w).2.StoredByOneAttempt := by
  unfold InitializeContextLocked.configure at h ⊢
  simp only at h ⊢
  split_ifs at h ⊢ with h1 h2 h3
  simp only [Bool.or_eq_true, Bool.not_eq_true', decide_eq_true_eq, not_or, Bool.not_eq_false,
    not_le] at h1
  refine ⟨w.trace ++ [Ev.eglBindAPI], [], decide (v ≥ 3), _, v, h1.2, ?_⟩
  simp [eglBindAPI, eglChooseConfig, eglCreatePbufferSurface, eglCreateContext, World.emit] at h1 ⊢
  exact h1.1

theorem InitializeContextLocked_fail (drv : Driver) (v : Int) (w : World)
    (h : (InitializeContextLocked drv v w).1 = false) :
    (InitializeContextLocked drv v w).2.rt.surface = w.rt.surface ∧
    (InitializeContextLocked drv v w).2.rt.context = w.rt.context ∧
    (InitializeContextLocked drv v w).2.rt.config = w.rt.config := by
  unfold InitializeContextLocked at h ⊢
  simp only at h ⊢
  split_ifs at h ⊢ with h1 h2 h3
  · exact ⟨rfl, rfl, rfl⟩
  · exact ⟨rfl, rfl, rfl⟩
  · rw [configure_fail_rt drv v _ h]
    exact ⟨rfl, rfl, rfl⟩
  · rw [configure_fail_rt drv v _ h]
    exact ⟨rfl, rfl, rfl⟩

theorem InitializeContextLocked_success_stored (drv : Driver) (v : Int) (w : World)
    (h : (InitializeContextLocked drv v w).1 = true) :
    (InitializeContextLocked drv v w).2.StoredByOneAttempt := by
  unfold InitializeContextLocked at h ⊢
  simp only at h ⊢
  split_ifs at h ⊢ with h1 h2 h3
  · exact configure_success_stored drv v _ h
  · exact configure_success_stored drv v _ h

/-- A successful attempt establishes the invariant. -/
theorem InitializeContextLocked_success_inv (drv : Driver) (v : Int) (w : World)
    (h : (InitializeContextLocked drv v w).1 = true) :
    (InitializeContextLocked drv v w).2.RuntimeInv := by
  obtain ⟨hs, hc, hd⟩ := InitializeContextLocked_success drv v w h
  exact Or.inr ⟨hd, hs, hc, InitializeContextLocked_success_stored drv v w h⟩

/-- A failed attempt keeps the unset part of the invariant. -/
theorem InitializeContextLocked_fail_inv (drv : Driver) (v : Int) (w : World)
    (h : (InitializeContextLocked drv v w).1 = false)
    (hw : w.rt.surface = EGL_NO_SURFACE ∧ w.rt.context = EGL_NO_CONTEXT ∧ w.rt.config = none) :
    (InitializeContextLocked drv v w).2.rt.surface = EGL_NO_SURFACE ∧
    (InitializeContextLocked drv v w).2.rt.context = EGL_NO_CONTEXT ∧
    (InitializeContextLocked drv v w).2.rt.config = none := by
  obtain ⟨a, b, c⟩ := InitializeContextLocked_fail drv v w h
  rw [a, b, c]
  exact hw

/-- The world `EnsureGlContext.makeCurrent` leaves: one more call, same runtime. -/
theorem makeCurrent_snd (drv : Driver) (w : World) :
    (EnsureGlContext.makeCurrent drv w).2 =
      w.emit (Ev.eglMakeCurrent w.rt.display w.rt.surface w.rt.surface w.rt.context
        (drv.eglMakeCurrent w.trace w.rt.display w.rt.surface w.rt.surface w.rt.context)) := by
  unfold EnsureGlContext.makeCurrent
  simp only [eglMakeCurrent]
  split_ifs <;> rfl

theorem makeCurrent_inv (drv : Driver) (w : World) (h : w.RuntimeInv) :
    (EnsureGlContext.makeCurrent drv w).2.RuntimeInv := by
  rw [makeCurrent_snd]
  exact RuntimeInv_of_extends h rfl ⟨_, rfl⟩

/-- `EnsureGlContext` preserves the invariant of the runtime. -/
theorem EnsureGlContext_inv (drv : Driver) (w : World) (h : w.RuntimeInv) :
    (EnsureGlContext drv w).2.RuntimeInv := by
  unfold EnsureGlContext
  simp only
  split_ifs with hno h3 h2
  · have hw : w.rt.surface = EGL_NO_SURFACE ∧ w.rt.context = EGL_NO_CONTEXT ∧
        w.rt.config = none := by
      rcases h with h | ⟨_, hs, hc, _⟩
      · exact h
      · rcases hno with hno | hno
        · exact absurd hno hc
        · exact absurd hno hs
    simp only [Bool.not_eq_true'] at h3 h2
    exact Or.inl (InitializeContextLocked_fail_inv drv 2 _ h2
      (InitializeContextLocked_fail_inv drv 3 w h3 hw))
  · simp only [Bool.not_eq_true', Bool.not_eq_false] at h2
    exact makeCurrent_inv drv _ (InitializeContextLocked_success_inv drv 2 _ h2)
  · simp only [Bool.not_eq_true', Bool.not_eq_false] at h3
    exact makeCurrent_inv drv _ (InitializeContextLocked_success_inv drv 3 _ h3)
  · exact makeCurrent_inv drv w h

/-- The calls of one `EnsureGlContext` are initialization calls and
`eglMakeCurrent`. -/
theorem EnsureGlContext_frame (drv : Driver) (w : World) :
    World.ExtendsBy (fun e => e.isInitCall = true ∨ e.isMakeCurrent = true) w
      (EnsureGlContext drv w).2 := by
  have init : ∀ (v : Int) (w1 : World),
      World.ExtendsBy (fun e => e.isInitCall = true ∨ e.isMakeCurrent = true) w1
        (InitializeContextLocked drv v w1).2 :=
    fun v w1 => (InitializeContextLocked_frame drv v w1).1.mono (fun _ h => Or.inl h)
  have mc : ∀ w1 : World,
      World.ExtendsBy (fun e => e.isInitCall = true ∨ e.isMakeCurrent = true) w1
        (EnsureGlContext.makeCurrent drv w1).2 := by
    intro w1
    rw [makeCurrent_snd]
    exact ⟨[_], rfl, by simp [Ev.isMakeCurrent]⟩
  unfold EnsureGlContext
  simp only
  split_ifs with hno h3 h2
  · exact (init 3 w).trans (init 2 _)
  · exact ((init 3 w).trans (init 2 _)).trans (mc _)
  · exact (init 3 w).trans (mc _)
  · exact mc w

/-! ## Lemmas on the queries -/

/-- The search fails exactly when the needle is no contiguous part of the
haystack. -/
theorem find_go_eq_none_iff (needle : List Char) (haystack : List Char) (pos : Nat) :
    find.go needle haystack pos = none ↔ ¬ needle <:+: haystack := by
  induction haystack generalizing pos with
  | nil =>
    unfold find.go
    by_cases h : needle = []
    · simp [h]
    · simp [h]
  | cons c rest ih =>
    unfold find.go
    by_cases h : needle.isPrefixOf (c :: rest) = true
    · simp only [h, if_true]
      have : needle <+: c :: rest := List.isPrefixOf_iff_prefix.mp h
      simp [this.isInfix]
    · simp only [h, Bool.false_eq_true, if_false]
      rw [ih, List.infix_cons_iff]
      have : ¬ needle <+: c :: rest := fun hp => h (List.isPrefixOf_iff_prefix.mpr hp)
      simp [this]

/-- The call `find` answers `npos` exactly when the needle is not a substring. -/
theorem find_eq_none_iff (haystack needle : List Char) :
    find haystack needle = none ↔ ¬ needle <:+: haystack :=
  find_go_eq_none_iff needle haystack 0

theorem find_ne_none_iff (haystack needle : List Char) :
    find haystack needle ≠ none ↔ needle <:+: haystack := by
  rw [Ne, find_eq_none_iff, not_not]

theorem toInt32_range (x : Int) : -2147483648 ≤ toInt32 x ∧ toInt32 x < 2147483648 := by
  unfold toInt32
  omega

theorem toInt32_of_range (x : Int) (h1 : -2147483648 ≤ x) (h2 : x < 2147483648) :
    toInt32 x = x := by
  unfold toInt32
  omega

/-- A value read by `glGetIntegerv` into a variable holding 0 is a 32-bit
signed integer. -/
theorem glGetIntegerv_range (drv : Driver) (pname : GLenum) (w : World) :
    -2147483648 ≤ (glGetIntegerv drv pname 0 w).1 ∧
    (glGetIntegerv drv pname 0 w).1 < 2147483648 := by
  unfold glGetIntegerv
  simp only
  cases drv.glGetIntegerv w.trace pname with
  | none => simp
  | some x => simpa using toInt32_range x

/-- Without the second marker the tail of `QueryGpuMemory` reads nothing. -/
theorem QueryGpuMemory_ati_absent (drv : Driver) (joined : List Char) (w : World)
    (h : ¬ kAtiMarker <:+: joined) : QueryGpuMemory.ati drv joined w = ((0, 0, 0), w) := by
  unfold QueryGpuMemory.ati
  rw [if_neg]
  rw [find_ne_none_iff]
  exact h

theorem VK_MAKE_VERSION_1_0_0 : VK_MAKE_VERSION 1 0 0 = 4194304 := by decide

/-! ## Lemmas on traces and on the extension list -/

/-- What a trace adds to a trace it starts with has every property of the
dropped rest. -/
theorem exists_new_of_drop (P : List Ev → Prop) {t T : List Ev} (hpre : t <+: T)
    (h : P (T.drop t.length)) : ∃ new : List Ev, T = t ++ new ∧ P new := by
  obtain ⟨s, hs⟩ := hpre
  refine ⟨s, hs.symm, ?_⟩
  rw [← hs, List.drop_left] at h
  exact h

/-- The scanner computes the non-empty pieces between whitespace characters. -/
theorem scan_eq_splitOnP (rest segment : List Char) (extensions : List (List Char)) :
    splitWhitespace.scan rest segment extensions =
      extensions ++ (List.splitOnP.go isspace rest segment.reverse).filter
        (fun run => decide (run ≠ [])) := by
  induction rest generalizing segment extensions with
  | nil =>
    by_cases h : segment = [] <;> simp [splitWhitespace.scan, List.splitOnP.go, h]
  | cons c rest ih =>
    unfold splitWhitespace.scan
    by_cases hc : isspace c = true
    · by_cases h : segment = []
      · simp [hc, h, ih, List.splitOnP.go]
      · simp [hc, h, ih, List.splitOnP.go]
    · simp only [hc, Bool.false_eq_true, if_false]
      rw [ih]
      simp [List.splitOnP.go, hc]

theorem splitWhitespace_eq_runs (raw : List Char) :
    splitWhitespace raw = whitespaceFreeRuns raw := by
  unfold splitWhitespace whitespaceFreeRuns List.splitOnP
  rw [scan_eq_splitOnP]
  simp

/-- No segment the scanner pushes is empty or holds a whitespace character. -/
theorem scan_good (rest segment : List Char) (extensions : List (List Char))
    (hseg : ∀ c ∈ segment, isspace c = false)
    (hext : ∀ s ∈ extensions, s ≠ [] ∧ ∀ c ∈ s, isspace c = false) :
    ∀ s ∈ splitWhitespace.scan rest segment extensions, s ≠ [] ∧ ∀ c ∈ s, isspace c = false := by
  induction rest generalizing segment extensions with
  | nil =>
    unfold splitWhitespace.scan
    split_ifs with h
    · exact hext
    · intro s hs
      rcases List.mem_append.mp hs with hs | hs
      · exact hext s hs
      · simp only [List.mem_singleton] at hs
        subst hs
        exact ⟨h, hseg⟩
  | cons c rest ih =>
    unfold splitWhitespace.scan
    split_ifs with hc h
    · exact ih [] extensions (by simp) hext
    · apply ih [] _ (by simp)
      intro s hs
      rcases List.mem_append.mp hs with hs | hs
      · exact hext s hs
      · simp only [List.mem_singleton] at hs
        subst hs
        exact ⟨h, hseg⟩
    · apply ih _ _ _ hext
      intro x hx
      rcases List.mem_append.mp hx with hx | hx
      · exact hseg x hx
      · simp only [List.mem_singleton] at hx
        subst hx
        simpa using hc

/-- The segments, concatenated, are the non-whitespace characters in order. -/
theorem scan_join (rest segment : List Char) (extensions : List (List Char)) :
    (splitWhitespace.scan rest segment extensions).flatten =
      extensions.flatten ++ segment ++ rest.filter (fun c => !isspace c) := by
  induction rest generalizing segment extensions with
  | nil =>
    unfold splitWhitespace.scan
    split_ifs with h
    · simp [h]
    · simp
  | cons c rest ih =>
    unfold splitWhitespace.scan
    split_ifs with hc h
    · rw [ih]; simp [hc, h]
    · rw [ih]; simp [hc]
    · rw [ih]; simp [hc]

/-- The indexed loop queries `remaining` consecutive indices once each and
collects the non-null answers in order. -/
theorem QueryExtensions_loop_spec (drv : Driver) (remaining index : Nat)
    (extensions : List (List Char)) (w : World) :
    ∃ names : List CString, names.length = remaining ∧
      (QueryExtensions.loop drv remaining index extensions w).2.trace
        = w.trace ++ indexedCalls index names ∧
      (QueryExtensions.loop drv remaining index extensions w).1
        = extensions ++ names.reduceOption ∧
      (QueryExtensions.loop drv remaining index extensions w).2.rt = w.rt := by
  induction remaining generalizing index extensions w with
  | zero => exact ⟨[], rfl, by simp [QueryExtensions.loop, indexedCalls], by
      simp [QueryExtensions.loop], rfl⟩
  | succ n ih =>
    unfold QueryExtensions.loop
    simp only
    cases hname : (glGetStringi drv GLenum.GL_EXTENSIONS index w).1 with
    | none =>
      obtain ⟨names, hl, ht, hr, hrt⟩ := ih (index + 1) extensions
        (glGetStringi drv GLenum.GL_EXTENSIONS index w).2
      refine ⟨none :: names, by simp [hl], ?_, ?_, ?_⟩
      · simp only [ht]
        simp only [glGetStringi] at hname ⊢
        simp [World.emit, indexedCalls, List.range'_succ, hname]
      · simp only [hr]
        simp [List.reduceOption_cons_of_none]
      · simp only [hrt]
        rfl
    | some s =>
      obtain ⟨names, hl, ht, hr, hrt⟩ := ih (index + 1) (extensions ++ [s])
        (glGetStringi drv GLenum.GL_EXTENSIONS index w).2
      refine ⟨some s :: names, by simp [hl], ?_, ?_, ?_⟩
      · simp only [ht]
        simp only [glGetStringi] at hname ⊢
        simp [World.emit, indexedCalls, List.range'_succ, hname]
      · simp only [hr]
        simp [List.reduceOption_cons_of_some]
      · simp only [hrt]
        rfl

/-! ## Lemmas on display failure, resources and markers -/

/-- Writing a null display over a null display changes nothing. -/
theorem rt_with_display (rt : GlRuntime) (h : rt.display = EGL_NO_DISPLAY) :
    { rt with display := EGL_NO_DISPLAY } = rt := by
  cases rt
  simp only at h
  subst h
  rfl

/-- With no display bound and a failing `eglGetDisplay`, an attempt is that one
call. -/
theorem InitializeContextLocked_no_display (drv : Driver) (glVersion : Int) (w : World)
    (hno : w.rt.display = EGL_NO_DISPLAY) (hget : drv.eglGetDisplay w.trace = EGL_NO_DISPLAY) :
    InitializeContextLocked drv glVersion w =
      (false, { w with trace := w.trace ++ [Ev.eglGetDisplay EGL_NO_DISPLAY],
                       attempts := w.attempts ++ [glVersion] }) := by
  unfold InitializeContextLocked
  simp only [hno, if_true, eglGetDisplay, hget, World.emit]
  rw [rt_with_display w.rt hno]

/-- What one `configure` adds to the trace. -/
theorem configure_balance (drv : Driver) (v : Int) (w : World) :
    ∃ new : List Ev, (InitializeContextLocked.configure drv v w).2.trace = w.trace ++ new ∧
      AttemptOutcome (InitializeContextLocked.configure drv v w).1 new := by
  apply exists_new_of_drop
  · exact (configure_frame drv v w).1.elim (fun n h => ⟨n, h.1.symm⟩)
  · unfold InitializeContextLocked.configure AttemptOutcome
    simp only
    split_ifs with h1 h2 h3 <;>
      simp [eglBindAPI, eglChooseConfig, eglCreatePbufferSurface, eglCreateContext,
        eglDestroySurface, World.emit, Ev.isSurfaceCreated, Ev.isSurfaceDestroyed,
        Ev.isContextCreated, List.countP_cons] at *
    all_goals simp_all [EGL_NO_SURFACE, EGL_NO_CONTEXT, Option.isSome_iff_ne_none]

/-- Calls that create and destroy nothing, put in front, leave the outcome of
an attempt as it is. -/
theorem AttemptOutcome_append (ok : Bool) (pre new : List Ev)
    (h1 : pre.countP Ev.isSurfaceCreated = 0) (h2 : pre.countP Ev.isSurfaceDestroyed = 0)
    (h3 : pre.countP Ev.isContextCreated = 0)
    (h4 : ∀ (d c s : Handle), s ≠ EGL_NO_SURFACE → Ev.eglCreatePbufferSurface d c s ∉ pre)
    (h : AttemptOutcome ok new) : AttemptOutcome ok (pre ++ new) := by
  unfold AttemptOutcome at h ⊢
  simp only [List.countP_append, h1, h2, h3, zero_add, List.mem_append]
  refine ⟨fun hok => ⟨(h.1 hok).1, (h.1 hok).2.1, ?_⟩, h.2⟩
  intro d c s hs hmem
  rcases hmem with hmem | hmem
  · exact absurd hmem (h4 d c s hs)
  · exact Or.inr ((h.1 hok).2.2 d c s hs hmem)

/-- What one `InitializeContextLocked` adds to the trace. -/
theorem InitializeContextLocked_balance (drv : Driver) (v : Int) (w : World) :
    ∃ new : List Ev, (InitializeContextLocked drv v w).2.trace = w.trace ++ new ∧
      AttemptOutcome (InitializeContextLocked drv v w).1 new := by
  unfold InitializeContextLocked
  simp only
  split_ifs with h1 h2 h3
  · refine ⟨[Ev.eglGetDisplay (drv.eglGetDisplay w.trace)], rfl, ?_⟩
    simp [AttemptOutcome, Ev.isSurfaceCreated, Ev.isSurfaceDestroyed, Ev.isContextCreated]
  · refine ⟨[Ev.eglGetDisplay (drv.eglGetDisplay w.trace),
      Ev.eglInitialize (drv.eglGetDisplay w.trace)
        (drv.eglInitialize (w.trace ++ [Ev.eglGetDisplay (drv.eglGetDisplay w.trace)])
          (drv.eglGetDisplay w.trace))], ?_, ?_⟩
    · simp [eglGetDisplay, eglInitialize, World.emit]
    · simp [AttemptOutcome, Ev.isSurfaceCreated, Ev.isSurfaceDestroyed, Ev.isContextCreated]
  · obtain ⟨new, hnew, hout⟩ := configure_balance drv v
      (eglInitialize drv (eglGetDisplay drv { w with attempts := w.attempts ++ [v] }).1
        { (eglGetDisplay drv { w with attempts := w.attempts ++ [v] }).2 with
          rt := { (eglGetDisplay drv { w with attempts := w.attempts ++ [v] }).2.rt with
            display := (eglGetDisplay drv { w with attempts := w.attempts ++ [v] }).1 } }).2
    refine ⟨[Ev.eglGetDisplay (drv.eglGetDisplay w.trace),
      Ev.eglInitialize (drv.eglGetDisplay w.trace)
        (drv.eglInitialize (w.trace ++ [Ev.eglGetDisplay (drv.eglGetDisplay w.trace)])
          (drv.eglGetDisplay w.trace))] ++ new, ?_, ?_⟩
    · rw [hnew]
      simp [eglGetDisplay, eglInitialize, World.emit]
    · exact AttemptOutcome_append _ _ _ (by simp [Ev.isSurfaceCreated])
        (by simp [Ev.isSurfaceDestroyed]) (by simp [Ev.isContextCreated]) (by simp) hout
  · obtain ⟨new, hnew, hout⟩ := configure_balance drv v { w with attempts := w.attempts ++ [v] }
    exact ⟨new, hnew, hout⟩

/-- An attempt made with neither surface nor context keeps the resources
balanced. -/
theorem InitializeContextLocked_resource_inv (drv : Driver) (v : Int) (w : World)
    (hinv : w.ResourceInv) (hs : w.rt.surface = EGL_NO_SURFACE)
    (hc : w.rt.context = EGL_NO_CONTEXT) :
    (InitializeContextLocked drv v w).2.ResourceInv := by
  obtain ⟨new, hnew, hout⟩ := InitializeContextLocked_balance drv v w
  obtain ⟨⟨hb1, hb2⟩, _⟩ := hinv
  simp only [hs, hc, ne_eq, not_true_eq_false, if_false, add_zero] at hb1 hb2
  cases hok : (InitializeContextLocked drv v w).1 with
  | false =>
    obtain ⟨fs, fc, _⟩ := InitializeContextLocked_fail drv v w hok
    obtain ⟨o1, o2, _⟩ := hout.1 hok
    refine ⟨⟨?_, ?_⟩, ?_⟩
    · rw [hnew, fs, hs]
      simp [List.countP_append, hb1, o1]
    · rw [hnew, fc, hc]
      simp [List.countP_append, hb2, o2]
    · rw [fs, fc, hs, hc]
  | true =>
    obtain ⟨ss, sc, _⟩ := InitializeContextLocked_success drv v w hok
    obtain ⟨o1, o2, o3⟩ := hout.2 hok
    refine ⟨⟨?_, ?_⟩, ?_⟩
    · rw [hnew, if_pos ss]
      simp [List.countP_append, hb1, o1, o2]
    · rw [hnew, if_pos sc]
      simp [List.countP_append, hb2, o3]
    · exact ⟨fun h => absurd h ss, fun h => absurd h sc⟩

/-- Making the context current creates and destroys nothing. -/
theorem makeCurrent_resource_inv (drv : Driver) (w : World) (hinv : w.ResourceInv) :
    (EnsureGlContext.makeCurrent drv w).2.ResourceInv := by
  rw [makeCurrent_snd]
  unfold World.ResourceInv World.ResourceBalance at hinv ⊢
  simpa [World.emit, List.countP_append, Ev.isSurfaceCreated, Ev.isSurfaceDestroyed,
    Ev.isContextCreated] using hinv

/-- `EnsureGlContext` keeps the resources balanced. -/
theorem EnsureGlContext_resource_inv (drv : Driver) (w : World) (hinv : w.ResourceInv) :
    (EnsureGlContext drv w).2.ResourceInv := by
  unfold EnsureGlContext
  simp only
  split_ifs with hno h3 h2
  all_goals try simp only [Bool.not_eq_true', Bool.not_eq_false] at h3
  all_goals try simp only [Bool.not_eq_true', Bool.not_eq_false] at h2
  · have hsc : w.rt.surface = EGL_NO_SURFACE ∧ w.rt.context = EGL_NO_CONTEXT := by
      rcases hno with h | h
      · exact ⟨hinv.2.mpr h, h⟩
      · exact ⟨h, hinv.2.mp h⟩
    obtain ⟨fs, fc, _⟩ := InitializeContextLocked_fail drv 3 w h3
    exact InitializeContextLocked_resource_inv drv 2 _
      (InitializeContextLocked_resource_inv drv 3 w hinv hsc.1 hsc.2)
      (fs.trans hsc.1) (fc.trans hsc.2)
  · have hsc : w.rt.surface = EGL_NO_SURFACE ∧ w.rt.context = EGL_NO_CONTEXT := by
      rcases hno with h | h
      · exact ⟨hinv.2.mpr h, h⟩
      · exact ⟨h, hinv.2.mp h⟩
    obtain ⟨fs, fc, _⟩ := InitializeContextLocked_fail drv 3 w h3
    exact makeCurrent_resource_inv drv _ (InitializeContextLocked_resource_inv drv 2 _
      (InitializeContextLocked_resource_inv drv 3 w hinv hsc.1 hsc.2)
      (fs.trans hsc.1) (fc.trans hsc.2))
  · have hsc : w.rt.surface = EGL_NO_SURFACE ∧ w.rt.context = EGL_NO_CONTEXT := by
      rcases hno with h | h
      · exact ⟨hinv.2.mpr h, h⟩
      · exact ⟨h, hinv.2.mp h⟩
    exact makeCurrent_resource_inv drv _
      (InitializeContextLocked_resource_inv drv 3 w hinv hsc.1 hsc.2)
  · exact makeCurrent_resource_inv drv w hinv

/-- The loop that builds `joined`, started from any string. -/
theorem joinExtensions_foldl (extensions : List (List Char)) (joined : List Char) :
    extensions.foldl (fun joined entry => joined ++ entry ++ [' ']) joined =
      joined ++ joinExtensions extensions := by
  induction extensions generalizing joined with
  | nil => simp [joinExtensions]
  | cons entry rest ih =>
    unfold joinExtensions
    simp only [List.foldl_cons, List.nil_append]
    rw [ih, ih (entry ++ [' '])]
    simp [joinExtensions]

/-- The joined string of a list is its first entry, a space, and the joined
string of the rest. -/
theorem joinExtensions_cons (entry : List Char) (rest : List (List Char)) :
    joinExtensions (entry :: rest) = entry ++ ' ' :: joinExtensions rest := by
  unfold joinExtensions
  simp only [List.foldl_cons, List.nil_append]
  rw [joinExtensions_foldl]
  simp [joinExtensions]

/-- A prefix of `a ++ sep :: b` that does not hold `sep` is a prefix of `a`. -/
theorem prefix_of_prefix_append_sep (m a b : List Char) (sep : Char) (hsep : sep ∉ m)
    (h : m <+: a ++ sep :: b) : m <+: a := by
  induction a generalizing m with
  | nil =>
    cases m with
    | nil => exact List.nil_prefix
    | cons x m' =>
      exfalso
      simp only [List.nil_append, List.cons_prefix_cons] at h
      exact hsep (by simp [h.1])
  | cons y a ih =>
    cases m with
    | nil => exact List.nil_prefix
    | cons x m' =>
      simp only [List.cons_append, List.cons_prefix_cons] at h ⊢
      exact ⟨h.1, ih m' (fun hm => hsep (List.mem_cons_of_mem _ hm)) h.2⟩

/-- A substring of `a ++ sep :: b` that does not hold `sep` lies in `a` or in `b`. -/
theorem infix_append_sep (m a b : List Char) (sep : Char) (hsep : sep ∉ m) :
    m <:+: a ++ sep :: b ↔ m <:+: a ∨ m <:+: b := by
  constructor
  · intro h
    induction a with
    | nil =>
      simp only [List.nil_append] at h
      rcases List.infix_cons_iff.mp h with hp | hi
      · left
        exact (prefix_of_prefix_append_sep m [] b sep hsep (by simpa using hp)).isInfix
      · exact Or.inr hi
    | cons y a ih =>
      simp only [List.cons_append] at h
      rcases List.infix_cons_iff.mp h with hp | hi
      · left
        exact (prefix_of_prefix_append_sep m (y :: a) b sep hsep (by simpa using hp)).isInfix
      · rcases ih hi with h1 | h2
        · exact Or.inl (List.infix_cons h1)
        · exact Or.inr h2
  · rintro (h | h)
    · exact h.trans (List.infix_append' [] a (sep :: b))
    · exact h.trans ((List.infix_cons (List.infix_refl b)).trans
        (List.suffix_append a (sep :: b)).isInfix)

/-- A non-empty string without a space is a substring of the joined string
exactly when it is a substring of one of the entries. -/
theorem infix_joinExtensions (m : List Char) (hsep : ' ' ∉ m) (hne : m ≠ [])
    (extensions : List (List Char)) :
    m <:+: joinExtensions extensions ↔ ∃ name ∈ extensions, m <:+: name := by
  induction extensions with
  | nil =>
    simp only [joinExtensions, List.foldl_nil, List.not_mem_nil, false_and, exists_false,
      iff_false]
    intro h
    exact hne (List.eq_nil_of_infix_nil h)
  | cons entry rest ih =>
    rw [joinExtensions_cons, infix_append_sep m entry _ ' ' hsep, ih]
    simp

/-! ## Lemmas on the decoders -/

/-- The decoding loop yields the decoded byte of every index in turn. -/
theorem loop_eq_map (buffer : List Int) (keyChars : List Nat) (keyLength remaining i : Nat) :
    DecodePayload.loop buffer keyChars keyLength remaining i =
      (List.range' i remaining).map (decodedByte buffer keyChars keyLength) := by
  induction remaining generalizing i with
  | zero => rfl
  | succ n ih => simp [DecodePayload.loop, ih, List.range'_succ]

/-- Exclusive or commutes with taking the low `n` bits. -/
theorem xor_mod_two_pow (a b n : Nat) : (a ^^^ b) % 2 ^ n = (a % 2 ^ n) ^^^ (b % 2 ^ n) := by
  apply Nat.eq_of_testBit_eq
  intro i
  simp only [Nat.testBit_mod_two_pow, Nat.testBit_xor]
  cases decide (i < n) <;> simp

/-- Decoding a byte that was encoded with the same key byte gives it back,
whatever the higher bits of the payload element. -/
theorem decodedByte_roundtrip (x : Int) (k c : Nat) (hk : k < 256)
    (hx : (x % 256).toNat = c ^^^ k) :
    (jintBits x ^^^ (k % 256)) &&& 0xFF = c := by
  have h255 : (0xFF : Nat) = 2 ^ 8 - 1 := by norm_num
  rw [h255, Nat.and_pow_two_sub_one_eq_mod, xor_mod_two_pow]
  have h1 : jintBits x % 2 ^ 8 = (x % 256).toNat := by
    unfold jintBits
    omega
  have h2 : k % 256 % 2 ^ 8 = k := by omega
  rw [h1, h2, hx, Nat.xor_cancel_right]

/-- A byte string without a zero byte is read whole. -/
theorem cstr_of_nonzero (bytes : List Nat) (h : ∀ b ∈ bytes, b ≠ 0) : cstr bytes = bytes := by
  unfold cstr
  rw [List.takeWhile_eq_self_iff]
  intro b hb
  simpa using h b hb

/-- With a key that `GetStringUTFChars` hands out unchanged, both decoders
return the decoded bytes cut off before the first zero byte. -/
theorem decoders_general (env : JNIEnv) (payload : List Int) (key : List Nat)
    (hkey : key ≠ []) (hbytes : ∀ k ∈ key, k ≠ 0)
    (henv : env.GetStringUTFChars key = some key) :
    DecodePayload env (some payload) (some key) =
      cstr ((List.range payload.length).map (decodedByte payload key key.length)) ∧
    Java_com_protosdk_sdk_fingerprint_nativebridge_EmulatorDetectionBridge_nativeDecodeString
      env (some payload) (some key) =
      some (cstr ((List.range payload.length).map (decodedByte payload key key.length))) := by
  have hlen : (cstr key).length ≠ 0 := by
    rw [cstr_of_nonzero key hbytes]
    exact fun h => hkey (List.length_eq_zero.mp h)
  unfold DecodePayload
    Java_com_protosdk_sdk_fingerprint_nativebridge_EmulatorDetectionBridge_nativeDecodeString
  simp only [henv, if_neg hlen, loop_eq_map, List.range_eq_range', cstr_of_nonzero key hbytes]
  have hlen2 : key.length ≠ 0 := fun h => hkey (List.length_eq_zero.mp h)
  by_cases hp : payload.length ≤ 0
  · have : payload.length = 0 := by omega
    simp [this, cstr]
  · simp only [if_neg hp, if_neg hlen2, and_self]

/-- The decoded bytes of an encoded plaintext are the plaintext. -/
theorem decoded_eq_plaintext (payload : List Int) (key plaintext : List Nat)
    (hkey : key ≠ []) (hbytes : ∀ k ∈ key, k < 256)
    (hlen : payload.length = plaintext.length)
    (hxor : ∀ i, i < plaintext.length →
      (payload.getD i 0 % 256).toNat = plaintext.getD i 0 ^^^ key.getD (i % key.length) 0) :
    (List.range payload.length).map (decodedByte payload key key.length) = plaintext := by
  apply List.ext_getElem
  · simp [hlen]
  · intro i h1 h2
    simp only [List.getElem_map, List.getElem_range]
    have hpos : 0 < key.length := List.length_pos.mpr hkey
    have hk : key.getD (i % key.length) 0 < 256 := by
      rw [List.getD_eq_getElem key 0 (Nat.mod_lt i hpos)]
      exact hbytes _ (List.getElem_mem _)
    unfold decodedByte
    rw [decodedByte_roundtrip _ _ (plaintext.getD i 0) hk (hxor i h2)]
    exact List.getD_eq_getElem plaintext 0 h2

/-! ## Claims -/

/-- C1. `EnsureGlContext` is idempotent with respect to resource creation:
once an initialization attempt has succeeded, in any state holding the
runtime of that success (whatever was called in between), `n` further calls
of `EnsureGlContext` leave display, surface, context and config at the
values of that success, enter no initialization attempt, and call the
platform exactly `n` times, each call an `eglMakeCurrent` on those handles:
no `eglGetDisplay`, `eglInitialize`, `eglChooseConfig`,
`eglCreatePbufferSurface` or `eglCreateContext` is called again. -/
theorem EnsureGlContext_idempotent (drv : Driver) (glVersion : Int) (w0 w : World) (n : Nat)
    (hinit : (InitializeContextLocked drv glVersion w0).1 = true)
    (hrt : w.rt = (InitializeContextLocked drv glVersion w0).2.rt) :
    (EnsureGlContext.calls drv n w).rt = (InitializeContextLocked drv glVersion w0).2.rt ∧
    (EnsureGlContext.calls drv n w).attempts = w.attempts ∧
    ∃ new : List Ev, (EnsureGlContext.calls drv n w).trace = w.trace ++ new ∧
      new.length = n ∧
      ∀ e ∈ new, ∃ r : Bool,
        e = Ev.eglMakeCurrent w.rt.display w.rt.surface w.rt.surface w.rt.context r := by
  obtain ⟨hs, hc, _⟩ := InitializeContextLocked_success drv glVersion w0 hinit
  rw [← hrt] at hs hc ⊢
  exact calls_of_ready drv n w hc hs

/-- C1, at a driver on which everything succeeds: first success from the
initial state, then three further calls. -/
theorem EnsureGlContext_idempotent_witness :
    (InitializeContextLocked Driver.ready 3 World.initial).1 = true ∧
    (EnsureGlContext.calls Driver.ready 3
        (InitializeContextLocked Driver.ready 3 World.initial).2).rt
      = { display := some 1, surface := some 3, context := some 4, config := some 2 } ∧
    (EnsureGlContext.calls Driver.ready 3
        (InitializeContextLocked Driver.ready 3 World.initial).2).attempts = [3] :=
  ⟨by decide,
   (EnsureGlContext_idempotent Driver.ready 3 World.initial
      (InitializeContextLocked Driver.ready 3 World.initial).2 3 (by decide) rfl).1.trans
      (by decide),
   (EnsureGlContext_idempotent Driver.ready 3 World.initial
      (InitializeContextLocked Driver.ready 3 World.initial).2 3 (by decide) rfl).2.1.trans
      (by decide)⟩

/-- C2. Version fallback in `EnsureGlContext`, for a runtime without a
context or without a surface: the call enters `InitializeContextLocked(3)`
first; if that succeeds it enters nothing else; if it fails it enters
`InitializeContextLocked(2)` exactly once after it; and if both fail the call
returns false having called no `eglMakeCurrent`. -/
theorem EnsureGlContext_version_fallback (drv : Driver) (w : World)
    (hno : w.rt.context = EGL_NO_CONTEXT ∨ w.rt.surface = EGL_NO_SURFACE) :
    ((InitializeContextLocked drv 3 w).1 = true →
      (EnsureGlContext drv w).2.attempts = w.attempts ++ [3]) ∧
    ((InitializeContextLocked drv 3 w).1 = false →
      (EnsureGlContext drv w).2.attempts = w.attempts ++ [3, 2]) ∧
    ((InitializeContextLocked drv 3 w).1 = false →
      (InitializeContextLocked drv 2 (InitializeContextLocked drv 3 w).2).1 = false →
      (EnsureGlContext drv w).1 = false ∧
      World.ExtendsBy (fun e => e.isMakeCurrent = false) w (EnsureGlContext drv w).2) := by
  obtain ⟨t3, a3⟩ := InitializeContextLocked_frame drv 3 w
  obtain ⟨t2, a2⟩ := InitializeContextLocked_frame drv 2 (InitializeContextLocked drv 3 w).2
  refine ⟨?_, ?_, ?_⟩
  · intro h3
    unfold EnsureGlContext EnsureGlContext.makeCurrent
    simp only [hno, if_true, h3, Bool.not_true, Bool.false_eq_true, if_false, eglMakeCurrent]
    split_ifs <;> exact a3
  · intro h3
    unfold EnsureGlContext EnsureGlContext.makeCurrent
    simp only [hno, if_true, h3, Bool.not_false, eglMakeCurrent]
    have a32 : (InitializeContextLocked drv 2 (InitializeContextLocked drv 3 w).2).2.attempts
        = w.attempts ++ [3, 2] := by
      rw [a2, a3]
      simp
    split_ifs <;> exact a32
  · intro h3 h2
    unfold EnsureGlContext
    simp only [hno, if_true, h3, h2, Bool.not_false]
    exact ⟨trivial, (t3.trans t2).mono isMakeCurrent_of_isInitCall⟩

/-- C2, at a driver that offers no configuration: from the initial state the
call enters version 3, then version 2, and fails. -/
theorem EnsureGlContext_version_fallback_witness :
    (World.initial.rt.context = EGL_NO_CONTEXT ∨ World.initial.rt.surface = EGL_NO_SURFACE) ∧
    (EnsureGlContext Driver.noConfig World.initial).2.attempts = [3, 2] ∧
    (EnsureGlContext Driver.noConfig World.initial).1 = false :=
  ⟨Or.inl rfl,
   (EnsureGlContext_version_fallback Driver.noConfig World.initial (Or.inl rfl)).2.1
      (by decide),
   ((EnsureGlContext_version_fallback Driver.noConfig World.initial (Or.inl rfl)).2.2
      (by decide) (by decide)).1⟩

/-- C3. Sentinel on context failure: whenever `EnsureGlContext` returns false,
every dependent query returns its sentinel and leaves the world exactly as
that `EnsureGlContext` left it, so no query call is issued: `QueryGlString`
(for every token) and the EGL-vendor query return the empty string,
`QueryExtensions` the empty sequence, `QueryEglConfig` six zeros,
`QueryGpuMemory` (0,0,0), the max-texture-size and max-compute-invocations
queries 0, and `RunMicroBenchmark` 0.0; the calls `EnsureGlContext` itself
made are initialization calls and `eglMakeCurrent` only. -/
theorem sentinel_on_context_failure (drv : Driver) (w : World)
    (hfail : (EnsureGlContext drv w).1 = false) :
    (∀ token : GLenum, QueryGlString drv token w = ([], (EnsureGlContext drv w).2)) ∧
    Java_com_protosdk_sdk_fingerprint_nativebridge_GpuDetectionBridge_nativeGetEglVendor drv w
      = ([], (EnsureGlContext drv w).2) ∧
    QueryExtensions drv w = ([], (EnsureGlContext drv w).2) ∧
    QueryEglConfig drv w = ([0, 0, 0, 0, 0, 0], (EnsureGlContext drv w).2) ∧
    QueryGpuMemory drv w = ((0, 0, 0), (EnsureGlContext drv w).2) ∧
    Java_com_protosdk_sdk_fingerprint_nativebridge_GpuDetectionBridge_nativeGetMaxTextureSize
      drv w = (0, (EnsureGlContext drv w).2) ∧
    Java_com_protosdk_sdk_fingerprint_nativebridge_GpuDetectionBridge_nativeGetComputeWorkGroupInvocations
      drv w = (0, (EnsureGlContext drv w).2) ∧
    RunMicroBenchmark drv w = (0, (EnsureGlContext drv w).2) ∧
    World.ExtendsBy (fun e => e.isInitCall = true ∨ e.isMakeCurrent = true) w
      (EnsureGlContext drv w).2 := by
  refine ⟨fun token => ?_, ?_, ?_, ?_, ?_, ?_, ?_, ?_, EnsureGlContext_frame drv w⟩
  · simp [QueryGlString, hfail]
  · simp [Java_com_protosdk_sdk_fingerprint_nativebridge_GpuDetectionBridge_nativeGetEglVendor,
      hfail]
  · simp [QueryExtensions, hfail]
  · simp [QueryEglConfig, hfail]
  · simp [QueryGpuMemory, hfail]
  · simp [Java_com_protosdk_sdk_fingerprint_nativebridge_GpuDetectionBridge_nativeGetMaxTextureSize,
      hfail]
  · simp [Java_com_protosdk_sdk_fingerprint_nativebridge_GpuDetectionBridge_nativeGetComputeWorkGroupInvocations,
      hfail]
  · simp [RunMicroBenchmark, hfail]

/-- C3, at a driver that offers no configuration: the context cannot be
made, and the memory query answers (0,0,0). -/
theorem sentinel_on_context_failure_witness :
    (EnsureGlContext Driver.noConfig World.initial).1 = false ∧
    QueryGpuMemory Driver.noConfig World.initial
      = ((0, 0, 0), (EnsureGlContext Driver.noConfig World.initial).2) :=
  ⟨by decide,
   (sentinel_on_context_failure Driver.noConfig World.initial (by decide)).2.2.2.2.1⟩

/-- C4 as stated fails: on a driver with a display but no matching
configuration, one `EnsureGlContext` from the initial state leaves the display
set and surface, context and config unset, which is neither all unset nor
all set. -/
theorem GlRuntime_all_or_nothing_counterexample :
    (EnsureGlContext Driver.noConfig World.initial).2.rt =
      { display := some 1, surface := EGL_NO_SURFACE, context := EGL_NO_CONTEXT,
        config := none } ∧
    ¬ ((EnsureGlContext Driver.noConfig World.initial).2.rt.allUnset ∨
       (EnsureGlContext Driver.noConfig World.initial).2.rt.allSet) := by
  have h : (EnsureGlContext Driver.noConfig World.initial).2.rt =
      { display := some 1, surface := EGL_NO_SURFACE, context := EGL_NO_CONTEXT,
        config := none } := by decide
  refine ⟨h, ?_⟩
  rw [h]
  simp [GlRuntime.allUnset, GlRuntime.allSet]

/-- C4, amended. After every `EnsureGlContext` call of a sequence started in a
state that satisfies the invariant (the initial state does), for every driver
and whether the calls succeed or fail: surface, context and config are all
unset (the display may already be bound), or display, surface and context are
all set and surface, context and config are the values of one successful
initialization attempt, the config being the one its `eglChooseConfig`
reported with a positive count. -/
theorem GlRuntime_invariant (drv : Driver) (n : Nat) (w : World) (h : w.RuntimeInv) :
    (EnsureGlContext.calls drv n w).RuntimeInv := by
  induction n generalizing w with
  | zero => exact h
  | succ n ih =>
    simp only [EnsureGlContext.calls]
    exact ih _ (EnsureGlContext_inv drv w h)

/-- C4 amended, from the initial state on a driver on which everything
succeeds. -/
theorem GlRuntime_invariant_witness :
    World.initial.RuntimeInv ∧
    (EnsureGlContext.calls Driver.ready 2 World.initial).RuntimeInv :=
  ⟨Or.inl ⟨rfl, rfl, rfl⟩,
   GlRuntime_invariant Driver.ready 2 World.initial (Or.inl ⟨rfl, rfl, rfl⟩)⟩

/-- C5. With the context available, if neither "GL_NVX_gpu_memory_info" nor
"GL_ATI_meminfo" is a substring of the joined extension string,
`QueryGpuMemory` returns (0,0,0) and ends in the world `QueryExtensions` left:
no vendor memory counter is read, whatever the driver would answer. -/
theorem QueryGpuMemory_no_marker (drv : Driver) (w : World) (extensions : List (List Char))
    (w2 : World)
    (hok : (EnsureGlContext drv w).1 = true)
    (hext : QueryExtensions drv (EnsureGlContext drv w).2 = (extensions, w2))
    (hnvx : ¬ kNvxMarker <:+: joinExtensions extensions)
    (hati : ¬ kAtiMarker <:+: joinExtensions extensions) :
    QueryGpuMemory drv w = ((0, 0, 0), w2) := by
  unfold QueryGpuMemory
  simp only [hok, hext, Bool.not_true, Bool.false_eq_true, if_false]
  rw [if_neg (by rw [find_ne_none_iff]; exact hnvx)]
  exact QueryGpuMemory_ati_absent drv _ w2 hati

/-- C5, at a driver whose only extension is "GL_OES_texture_float" and whose
counters would answer 4096, 1024 and 512. -/
theorem QueryGpuMemory_no_marker_witness :
    (EnsureGlContext (Driver.memory "GL_OES_texture_float".toList (some 4096) (some 1024)
      (some 512)) World.initial).1 = true ∧
    (QueryGpuMemory (Driver.memory "GL_OES_texture_float".toList (some 4096) (some 1024)
      (some 512)) World.initial).1 = (0, 0, 0) :=
  ⟨by decide,
   congrArg Prod.fst
    (QueryGpuMemory_no_marker
      (Driver.memory "GL_OES_texture_float".toList (some 4096) (some 1024) (some 512))
      World.initial _ _ (by decide) rfl (by decide) (by decide))⟩

/-- C6 as stated fails: with extensions ["GL_OES_texture_float",
"GL_NVX_gpu_memory_info"], total = 4096 and current = -1 the result is
(4096, 4096, 0), not (total, total - current, current) = (4096, 4097, -1). -/
theorem QueryGpuMemory_first_vendor_counterexample :
    kNvxMarker <:+: joinExtensions
      ["GL_OES_texture_float".toList, "GL_NVX_gpu_memory_info".toList] ∧
    (QueryExtensions (Driver.memory "GL_OES_texture_float GL_NVX_gpu_memory_info".toList
      (some 4096) (some (-1)) none)
      (EnsureGlContext (Driver.memory "GL_OES_texture_float GL_NVX_gpu_memory_info".toList
        (some 4096) (some (-1)) none) World.initial).2).1
      = ["GL_OES_texture_float".toList, "GL_NVX_gpu_memory_info".toList] ∧
    (QueryGpuMemory (Driver.memory "GL_OES_texture_float GL_NVX_gpu_memory_info".toList
      (some 4096) (some (-1)) none) World.initial).1 = (4096, 4096, 0) ∧
    (QueryGpuMemory (Driver.memory "GL_OES_texture_float GL_NVX_gpu_memory_info".toList
      (some 4096) (some (-1)) none) World.initial).1 ≠ (4096, 4096 - (-1), -1) := by
  refine ⟨by decide, by decide, by decide, by decide⟩

/-- C6, amended. With the context available and "GL_NVX_gpu_memory_info" a
substring of the joined extension string, for counters (total, current) with
total > 0: the result is (total, total - current, current) when current > 0,
and (total, total, 0) when current <= 0 (the free slot is clamped at 0). -/
theorem QueryGpuMemory_first_vendor (drv : Driver) (w : World) (extensions : List (List Char))
    (w2 w3 w4 : World) (total current : Int)
    (hok : (EnsureGlContext drv w).1 = true)
    (hext : QueryExtensions drv (EnsureGlContext drv w).2 = (extensions, w2))
    (hnvx : kNvxMarker <:+: joinExtensions extensions)
    (htotal : glGetIntegerv drv GLenum.GL_GPU_MEMORY_INFO_TOTAL_AVAILABLE_MEMORY_NVX 0 w2
      = (total, w3))
    (hcurrent : glGetIntegerv drv GLenum.GL_GPU_MEMORY_INFO_CURRENT_AVAILABLE_VIDMEM_NVX 0 w3
      = (current, w4))
    (hpos : 0 < total) :
    (0 < current → QueryGpuMemory drv w = ((total, total - current, current), w4)) ∧
    (current ≤ 0 → QueryGpuMemory drv w = ((total, total, 0), w4)) := by
  have rt := glGetIntegerv_range drv GLenum.GL_GPU_MEMORY_INFO_TOTAL_AVAILABLE_MEMORY_NVX w2
  have rc := glGetIntegerv_range drv GLenum.GL_GPU_MEMORY_INFO_CURRENT_AVAILABLE_VIDMEM_NVX w3
  rw [htotal] at rt
  rw [hcurrent] at rc
  simp only at rt rc
  have hfind : find (joinExtensions extensions) kNvxMarker ≠ none :=
    (find_ne_none_iff _ _).mpr hnvx
  constructor
  · intro hc
    unfold QueryGpuMemory
    simp only [hok, hext, htotal, hcurrent, Bool.not_true, Bool.false_eq_true, if_false,
      if_pos hfind, gt_iff_lt, if_pos hpos, if_pos hc]
    rw [toInt32_of_range _ (by omega) (by omega)]
  · intro hc
    unfold QueryGpuMemory
    simp only [hok, hext, htotal, hcurrent, Bool.not_true, Bool.false_eq_true, if_false,
      if_pos hfind, gt_iff_lt, if_pos hpos, if_neg (not_lt.mpr hc)]
    rw [toInt32_of_range _ (by omega) (by omega)]
    simp

/-- C6 amended, at the scenario of the specification: extensions
["GL_OES_texture_float", "GL_NVX_gpu_memory_info"], total = 4096 and
current = 1024 give (4096, 3072, 1024). -/
theorem QueryGpuMemory_first_vendor_witness :
    (0 : Int) < 4096 ∧ (0 : Int) < 1024 ∧
    (QueryExtensions (Driver.memory "GL_OES_texture_float GL_NVX_gpu_memory_info".toList
      (some 4096) (some 1024) none)
      (EnsureGlContext (Driver.memory "GL_OES_texture_float GL_NVX_gpu_memory_info".toList
        (some 4096) (some 1024) none) World.initial).2).1
      = ["GL_OES_texture_float".toList, "GL_NVX_gpu_memory_info".toList] ∧
    (QueryGpuMemory (Driver.memory "GL_OES_texture_float GL_NVX_gpu_memory_info".toList
      (some 4096) (some 1024) none) World.initial).1 = (4096, 3072, 1024) :=
  ⟨by decide, by decide, by decide,
   congrArg Prod.fst
    ((QueryGpuMemory_first_vendor
      (Driver.memory "GL_OES_texture_float GL_NVX_gpu_memory_info".toList
        (some 4096) (some 1024) none)
      World.initial _ _ _ _ 4096 1024 (by decide) rfl (by decide) rfl rfl (by decide)).1
      (by decide))⟩

/-- C7 as stated fails: with the only extension "GL_ATI_meminfo" and a driver
that reports free = -1, the result is (0, 0, 0), not (free, 0, free) =
(-1, 0, -1). -/
theorem QueryGpuMemory_second_vendor_counterexample :
    kAtiMarker <:+: joinExtensions ["GL_ATI_meminfo".toList] ∧
    ¬ kNvxMarker <:+: joinExtensions ["GL_ATI_meminfo".toList] ∧
    (QueryExtensions (Driver.memory "GL_ATI_meminfo".toList none none (some (-1)))
      (EnsureGlContext (Driver.memory "GL_ATI_meminfo".toList none none (some (-1)))
        World.initial).2).1 = ["GL_ATI_meminfo".toList] ∧
    (QueryGpuMemory (Driver.memory "GL_ATI_meminfo".toList none none (some (-1)))
      World.initial).1 = (0, 0, 0) ∧
    (QueryGpuMemory (Driver.memory "GL_ATI_meminfo".toList none none (some (-1)))
      World.initial).1 ≠ (-1, 0, -1) := by
  refine ⟨by decide, by decide, by decide, by decide, by decide⟩

/-- C7, amended. With the context available, "GL_ATI_meminfo" a substring of
the joined extension string and "GL_NVX_gpu_memory_info" not, for the value
free read as first element of `GL_TEXTURE_FREE_MEMORY_ATI`: the result is
(free, 0, free) when free > 0, and (0, 0, 0) when free <= 0. -/
theorem QueryGpuMemory_second_vendor (drv : Driver) (w : World) (extensions : List (List Char))
    (w2 w3 : World) (free : Int)
    (hok : (EnsureGlContext drv w).1 = true)
    (hext : QueryExtensions drv (EnsureGlContext drv w).2 = (extensions, w2))
    (hati : kAtiMarker <:+: joinExtensions extensions)
    (hnvx : ¬ kNvxMarker <:+: joinExtensions extensions)
    (hfree : glGetIntegerv drv GLenum.GL_TEXTURE_FREE_MEMORY_ATI 0 w2 = (free, w3)) :
    (0 < free → QueryGpuMemory drv w = ((free, 0, free), w3)) ∧
    (free ≤ 0 → QueryGpuMemory drv w = ((0, 0, 0), w3)) := by
  have hfn : ¬ find (joinExtensions extensions) kNvxMarker ≠ none := by
    rw [find_ne_none_iff]; exact hnvx
  have hfa : find (joinExtensions extensions) kAtiMarker ≠ none :=
    (find_ne_none_iff _ _).mpr hati
  constructor
  · intro hf
    unfold QueryGpuMemory QueryGpuMemory.ati
    simp only [hok, hext, hfree, Bool.not_true, Bool.false_eq_true, if_false,
      if_neg hfn, if_pos hfa, gt_iff_lt, if_pos hf]
  · intro hf
    unfold QueryGpuMemory QueryGpuMemory.ati
    simp only [hok, hext, hfree, Bool.not_true, Bool.false_eq_true, if_false,
      if_neg hfn, if_pos hfa, gt_iff_lt, if_neg (not_lt.mpr hf)]

/-- C7 amended, at a driver whose only extension is "GL_ATI_meminfo" and that
reports free = 2048. -/
theorem QueryGpuMemory_second_vendor_witness :
    (0 : Int) < 2048 ∧
    (QueryGpuMemory (Driver.memory "GL_ATI_meminfo".toList none none (some 2048))
      World.initial).1 = (2048, 0, 2048) :=
  ⟨by decide,
   congrArg Prod.fst
    ((QueryGpuMemory_second_vendor (Driver.memory "GL_ATI_meminfo".toList none none (some 2048))
      World.initial _ _ _ 2048 (by decide) rfl (by decide) (by decide) rfl).1 (by decide))⟩

/-- C8 at its failing input: with the only extension "GL_NVX_gpu_memory_info",
total = 100 and current = 200, `QueryGpuMemory` returns (100, -100, 200),
whose used component is negative. -/
theorem QueryGpuMemory_negative_used :
    kNvxMarker <:+: joinExtensions ["GL_NVX_gpu_memory_info".toList] ∧
    (QueryExtensions (Driver.memory "GL_NVX_gpu_memory_info".toList (some 100) (some 200) none)
      (EnsureGlContext (Driver.memory "GL_NVX_gpu_memory_info".toList (some 100) (some 200)
        none) World.initial).2).1 = ["GL_NVX_gpu_memory_info".toList] ∧
    (QueryGpuMemory (Driver.memory "GL_NVX_gpu_memory_info".toList (some 100) (some 200) none)
      World.initial).1 = (100, -100, 200) ∧
    (QueryGpuMemory (Driver.memory "GL_NVX_gpu_memory_info".toList (some 100) (some 200) none)
      World.initial).1.2.1 < 0 := by
  refine ⟨by decide, by decide, by decide, by decide⟩

/-- C9. With the context available, for every value the capability read
produced: the max-compute-invocations query returns 0 when the `glGetError`
right after the read is not `GL_NO_ERROR`, and exactly the value read when it
is `GL_NO_ERROR`. -/
theorem compute_invocations (drv : Driver) (w : World)
    (w1 w2 : World) (value : Int) (error : GLerror)
    (hok : EnsureGlContext drv w = (true, w1))
    (hvalue : glGetIntegerv drv GLenum.GL_MAX_COMPUTE_WORK_GROUP_INVOCATIONS 0 w1 = (value, w2))
    (herror : (glGetError drv w2).1 = error) :
    (error ≠ GLerror.GL_NO_ERROR →
      (Java_com_protosdk_sdk_fingerprint_nativebridge_GpuDetectionBridge_nativeGetComputeWorkGroupInvocations
        drv w).1 = 0) ∧
    (error = GLerror.GL_NO_ERROR →
      (Java_com_protosdk_sdk_fingerprint_nativebridge_GpuDetectionBridge_nativeGetComputeWorkGroupInvocations
        drv w).1 = value) := by
  unfold Java_com_protosdk_sdk_fingerprint_nativebridge_GpuDetectionBridge_nativeGetComputeWorkGroupInvocations
  simp only [hok, hvalue, herror, Bool.not_true, Bool.false_eq_true, if_false]
  constructor
  · intro h
    rw [if_pos h]
  · intro h
    rw [if_neg (not_not.mpr h)]

/-- C9, at a driver that reads 1024: with the error flag 1282 raised the query
returns 0, with no error it returns 1024. -/
theorem compute_invocations_witness :
    GLerror.raised 1282 ≠ GLerror.GL_NO_ERROR ∧
    (Java_com_protosdk_sdk_fingerprint_nativebridge_GpuDetectionBridge_nativeGetComputeWorkGroupInvocations
      (Driver.compute (some 1024) (GLerror.raised 1282)) World.initial).1 = 0 ∧
    (Java_com_protosdk_sdk_fingerprint_nativebridge_GpuDetectionBridge_nativeGetComputeWorkGroupInvocations
      (Driver.compute (some 1024) GLerror.GL_NO_ERROR) World.initial).1 = 1024 :=
  ⟨by decide,
   (compute_invocations (Driver.compute (some 1024) (GLerror.raised 1282)) World.initial
      _ _ 1024 (GLerror.raised 1282) rfl rfl rfl).1 (by decide),
   (compute_invocations (Driver.compute (some 1024) GLerror.GL_NO_ERROR) World.initial
      _ _ 1024 GLerror.GL_NO_ERROR rfl rfl rfl).2 rfl⟩

/-- C10. Decision table of `CheckVulkanSupport`: it returns false when neither
"libvulkan.so" nor "libvulkan.so.1" loads; when one of them loads (the second
being tried after the first failed) it returns true if and only if
`vkEnumerateInstanceVersion` does not resolve, or resolves and the call
returns `VK_SUCCESS` with a version >= 4194304 = `VK_MAKE_VERSION(1,0,0)`;
and when the first name loads, no load of the fallback name is among the
calls made. -/
theorem CheckVulkanSupport_decision (drv : Driver) (w : World) :
    ((dlopen drv "libvulkan.so".toList w).1 = none →
      (dlopen drv "libvulkan.so.1".toList (dlopen drv "libvulkan.so".toList w).2).1 = none →
      (CheckVulkanSupport drv w).1 = false) ∧
    (∀ (handle : Handle) (w1 : World), handle ≠ none →
      (dlopen drv "libvulkan.so".toList w = (handle, w1) ∨
        ((dlopen drv "libvulkan.so".toList w).1 = none ∧
          dlopen drv "libvulkan.so.1".toList (dlopen drv "libvulkan.so".toList w).2
            = (handle, w1))) →
      ((CheckVulkanSupport drv w).1 = true ↔
        ((dlsym drv handle "vkEnumerateInstanceVersion".toList w1).1 = false ∨
         ((dlsym drv handle "vkEnumerateInstanceVersion".toList w1).1 = true ∧
          (vkEnumerateInstanceVersion drv
            (dlsym drv handle "vkEnumerateInstanceVersion".toList w1).2).1.1
              = VkResult.VK_SUCCESS ∧
          4194304 ≤ (vkEnumerateInstanceVersion drv
            (dlsym drv handle "vkEnumerateInstanceVersion".toList w1).2).1.2)))) ∧
    ((dlopen drv "libvulkan.so".toList w).1 ≠ none →
      World.ExtendsBy (fun e => ∀ r : Handle, e ≠ Ev.dlopen "libvulkan.so.1".toList r) w
        (CheckVulkanSupport drv w).2) ∧
    VK_MAKE_VERSION 1 0 0 = 4194304 := by
  refine ⟨?_, ?_, ?_, VK_MAKE_VERSION_1_0_0⟩
  · intro h1 h2
    unfold CheckVulkanSupport
    simp only [h1, if_true, h2]
  · intro handle w1 hh hload
    have key : (CheckVulkanSupport drv w).1 =
        (if (dlsym drv handle "vkEnumerateInstanceVersion".toList w1).1 = true then
          (decide ((vkEnumerateInstanceVersion drv
            (dlsym drv handle "vkEnumerateInstanceVersion".toList w1).2).1.1
              = VkResult.VK_SUCCESS) &&
           decide ((vkEnumerateInstanceVersion drv
            (dlsym drv handle "vkEnumerateInstanceVersion".toList w1).2).1.2
              ≥ VK_MAKE_VERSION 1 0 0))
         else true) := by
      unfold CheckVulkanSupport
      rcases hload with h | ⟨h1, h2⟩
      · simp only [h, if_neg hh]
        split_ifs <;> rfl
      · simp only [h1, if_true, h2, if_neg hh]
        split_ifs <;> rfl
    rw [key, VK_MAKE_VERSION_1_0_0]
    cases hs : (dlsym drv handle "vkEnumerateInstanceVersion".toList w1).1
    · simp
    · simp
  · intro h1
    unfold CheckVulkanSupport
    simp only [if_neg h1]
    split_ifs <;> apply World.ExtendsBy.of_drop <;>
      simp [dlopen, dlsym, dlclose, vkEnumerateInstanceVersion, World.emit]

/-- C10, at two loaders: one on which neither name loads, one on which only
the fallback loads and the version symbol does not resolve. -/
theorem CheckVulkanSupport_decision_witness :
    (CheckVulkanSupport (Driver.vulkan none none true VkResult.VK_SUCCESS (some 4194304))
      World.initial).1 = false ∧
    (CheckVulkanSupport (Driver.vulkan none (some 7) false VkResult.VK_SUCCESS none)
      World.initial).1 = true :=
  ⟨(CheckVulkanSupport_decision
      (Driver.vulkan none none true VkResult.VK_SUCCESS (some 4194304)) World.initial).1
      (by decide) (by decide),
   ((CheckVulkanSupport_decision
      (Driver.vulkan none (some 7) false VkResult.VK_SUCCESS none) World.initial).2.1
      (some 7) _ (by decide) (Or.inr ⟨by decide, rfl⟩)).mpr (Or.inl (by decide))⟩

/-- C11. `CheckVulkanSupport` releases what it loads on every path: among the
calls it makes, the number of `dlclose` calls equals the number of successful
`dlopen` calls, which is 0 or 1; a `dlclose` is applied to a non-null handle
that one of its `dlopen` calls returned, and it is the last call made before
the function returns. -/
theorem CheckVulkanSupport_releases (drv : Driver) (w : World) :
    ∃ new : List Ev, (CheckVulkanSupport drv w).2.trace = w.trace ++ new ∧
      (new.countP Ev.isClosed = new.countP Ev.isOpened ∧
      new.countP Ev.isOpened ≤ 1 ∧
      (∀ handle : Handle, Ev.dlclose handle ∈ new →
        handle ≠ none ∧ (∃ filename : List Char, Ev.dlopen filename handle ∈ new) ∧
        new.getLast? = some (Ev.dlclose handle))) := by
  apply exists_new_of_drop
  · unfold CheckVulkanSupport
    simp only
    split_ifs <;> simp [dlopen, dlsym, dlclose, vkEnumerateInstanceVersion, World.emit]
  · simp only [CheckVulkanSupport, dlopen, dlsym, dlclose, vkEnumerateInstanceVersion,
      World.emit]
    generalize drv.dlopen w.trace _ = first
    generalize drv.dlopen _ _ = second
    cases first with
    | none =>
      cases second with
      | none => simp [Ev.isOpened, Ev.isClosed]
      | some h =>
        simp only [if_true, reduceCtorEq, if_false]
        generalize drv.dlsym _ _ _ = resolved
        cases resolved <;> simp [Ev.isOpened, Ev.isClosed, List.countP_cons]
    | some h =>
      simp only [reduceCtorEq, if_false]
      generalize drv.dlsym _ _ _ = resolved
      cases resolved <;> simp [Ev.isOpened, Ev.isClosed, List.countP_cons]

/-- C11, at a loader on which only the fallback name loads: the calls are the
two loads, the symbol lookup and the close of the handle that was opened. -/
theorem CheckVulkanSupport_releases_witness :
    (CheckVulkanSupport (Driver.vulkan none (some 7) false VkResult.VK_SUCCESS none)
      World.initial).2.trace =
      [Ev.dlopen "libvulkan.so".toList none, Ev.dlopen "libvulkan.so.1".toList (some 7),
       Ev.dlsym (some 7) "vkEnumerateInstanceVersion".toList false, Ev.dlclose (some 7)] ∧
    ∃ new : List Ev,
      (CheckVulkanSupport (Driver.vulkan none (some 7) false VkResult.VK_SUCCESS none)
        World.initial).2.trace = World.initial.trace ++ new ∧
      new.countP Ev.isClosed = new.countP Ev.isOpened :=
  ⟨by decide,
   (CheckVulkanSupport_releases (Driver.vulkan none (some 7) false VkResult.VK_SUCCESS none)
      World.initial).imp (fun _ h => ⟨h.1, h.2.1⟩)⟩

/-- C12. `QueryExtensions`, legacy path: with the context available and a
`GL_EXTENSIONS` string that is non-null and non-empty, the result is exactly
the sequence of maximal whitespace-free runs of that string in left-to-right
order; no element is empty or holds a whitespace character; the elements
concatenated are the non-whitespace characters of the string in order; the
call ends in the world `glGetString` left, so the indexed enumeration is not
consulted; and a string of whitespace only gives the empty sequence. -/
theorem QueryExtensions_legacy (drv : Driver) (w w1 w2 : World) (raw : List Char)
    (hok : EnsureGlContext drv w = (true, w1))
    (hstr : glGetString drv GLenum.GL_EXTENSIONS w1 = (some raw, w2))
    (hne : raw ≠ []) :
    QueryExtensions drv w = (whitespaceFreeRuns raw, w2) ∧
    (∀ s ∈ (QueryExtensions drv w).1, s ≠ [] ∧ ∀ c ∈ s, isspace c = false) ∧
    (QueryExtensions drv w).1.flatten = raw.filter (fun c => !isspace c) ∧
    ((∀ c ∈ raw, isspace c = true) → QueryExtensions drv w = ([], w2)) := by
  have key : QueryExtensions drv w = (splitWhitespace raw, w2) := by
    unfold QueryExtensions
    simp only [hok, hstr, Bool.not_true, Bool.false_eq_true, if_false]
    cases raw with
    | nil => exact absurd rfl hne
    | cons c rest => rfl
  have hjoin : (splitWhitespace raw).flatten = raw.filter (fun c => !isspace c) := by
    unfold splitWhitespace
    rw [scan_join]
    simp
  have hgood := scan_good raw [] [] (by simp) (by simp)
  refine ⟨by rw [key, splitWhitespace_eq_runs], by rw [key]; exact hgood, by rw [key]; exact hjoin,
    ?_⟩
  intro hall
  rw [key]
  have hnil : (splitWhitespace raw).flatten = [] := by
    rw [hjoin, List.filter_eq_nil_iff]
    intro c hc
    simp [hall c hc]
  cases hs : splitWhitespace raw with
  | nil => rfl
  | cons s rest =>
    exfalso
    have hmem : s ∈ splitWhitespace raw := by rw [hs]; simp
    have hsne := (hgood s hmem).1
    rw [hs] at hnil
    simp only [List.flatten_cons, List.append_eq_nil] at hnil
    exact hsne hnil.1

/-- C12, at a driver whose legacy string is
"GL_OES_texture_float GL_NVX_gpu_memory_info". -/
theorem QueryExtensions_legacy_witness :
    "GL_OES_texture_float GL_NVX_gpu_memory_info".toList ≠ [] ∧
    (QueryExtensions Driver.ready World.initial).1 =
      ["GL_OES_texture_float".toList, "GL_NVX_gpu_memory_info".toList] :=
  ⟨by decide,
   (congrArg Prod.fst (QueryExtensions_legacy Driver.ready World.initial _ _
      "GL_OES_texture_float GL_NVX_gpu_memory_info".toList rfl rfl (by decide)).1).trans
      (by decide)⟩

/-- C13. `QueryExtensions`, indexed fallback: with the context available and a
legacy `GL_EXTENSIONS` string that is null or empty, the result is the empty
sequence if `glGetStringi` does not resolve or the count is <= 0; otherwise
the calls made after the lookup are `glGetStringi(GL_EXTENSIONS, i)` for
i = 0, 1, ..., count-1, once each in increasing order, and the result is the
subsequence of their non-null answers, of length at most count. -/
theorem QueryExtensions_indexed (drv : Driver) (w w1 w2 w3 w4 : World) (legacy : CString)
    (count : Int) (resolved : Bool)
    (hok : EnsureGlContext drv w = (true, w1))
    (hstr : glGetString drv GLenum.GL_EXTENSIONS w1 = (legacy, w2))
    (hlegacy : legacy = none ∨ legacy = some [])
    (hcount : glGetIntegerv drv GLenum.GL_NUM_EXTENSIONS 0 w2 = (count, w3))
    (hres : eglGetProcAddress drv "glGetStringi".toList w3 = (resolved, w4)) :
    ((resolved = false ∨ count ≤ 0) → QueryExtensions drv w = ([], w4)) ∧
    (resolved = true → 0 < count →
      ∃ names : List CString, names.length = count.toNat ∧
        (QueryExtensions drv w).2.trace = w4.trace ++ indexedCalls 0 names ∧
        (QueryExtensions drv w).1 = names.reduceOption ∧
        (QueryExtensions drv w).1.length ≤ count.toNat) := by
  have key : QueryExtensions drv w =
      if !resolved || decide (count ≤ 0) then ([], w4)
      else QueryExtensions.loop drv count.toNat 0 [] w4 := by
    unfold QueryExtensions
    simp only [hok, hstr, Bool.not_true, Bool.false_eq_true, if_false]
    rcases hlegacy with h | h <;> subst h <;> simp only [hcount, hres]
  constructor
  · intro h
    rw [key, if_pos]
    rcases h with h | h
    · simp [h]
    · simp [h]
  · intro hr hc
    rw [key, if_neg (by simp [hr, hc])]
    obtain ⟨names, hl, ht, hres, _⟩ := QueryExtensions_loop_spec drv count.toNat 0 [] w4
    refine ⟨names, hl, ht, by simpa using hres, ?_⟩
    rw [hres, ← hl]
    simpa using List.reduceOption_length_le names

/-- C13, at a driver that enumerates three names the second of which is null. -/
theorem QueryExtensions_indexed_witness :
    (QueryExtensions (Driver.indexed [some "GL_A".toList, none, some "GL_B".toList])
      World.initial).1 = ["GL_A".toList, "GL_B".toList] ∧
    ∃ names : List CString, names.length = 3 ∧
      (QueryExtensions (Driver.indexed [some "GL_A".toList, none, some "GL_B".toList])
        World.initial).1 = names.reduceOption :=
  ⟨by decide,
   ((QueryExtensions_indexed (Driver.indexed [some "GL_A".toList, none, some "GL_B".toList])
      World.initial _ _ _ _ none 3 true rfl rfl (Or.inl rfl) rfl rfl).2 rfl (by decide)).imp
      (fun _ h => ⟨h.1, h.2.2.1⟩)⟩

/-- C14 as stated fails: on a driver whose first `eglGetDisplay` fails and whose
second succeeds, an `EnsureGlContext` call that starts with no display bound
sees the bind fail, binds again in its version-2 attempt, goes on to
configuration selection, surface and context creation, and returns true. -/
theorem display_failure_terminal_counterexample :
    World.initial.rt.display = EGL_NO_DISPLAY ∧
    (eglGetDisplay Driver.displayOnRetry World.initial).1 = EGL_NO_DISPLAY ∧
    (EnsureGlContext Driver.displayOnRetry World.initial).1 = true ∧
    (EnsureGlContext Driver.displayOnRetry World.initial).2.trace =
      [Ev.eglGetDisplay none, Ev.eglGetDisplay (some 1), Ev.eglInitialize (some 1) true,
       Ev.eglBindAPI, Ev.eglChooseConfig (some 1) false true (some 2) 1,
       Ev.eglCreatePbufferSurface (some 1) (some 2) (some 3),
       Ev.eglCreateContext (some 1) (some 2) 2 (some 4),
       Ev.eglMakeCurrent (some 1) (some 3) (some 3) (some 4) true] := by
  refine ⟨rfl, by decide, by decide, by decide⟩

/-- C14, amended. Display failure is terminal for the initialization attempt:
if, during an `InitializeContextLocked` call that starts with no display
bound, `eglGetDisplay` fails, the attempt returns false having made that one
call and changed nothing in the runtime; if `eglInitialize` fails, the attempt
returns false having made those two calls only; in both cases no
configuration selection, surface creation or context creation is attempted in
that attempt. `EnsureGlContext` still makes its version-2 attempt, which after
a failed `eglGetDisplay` binds the display again, and the call returns
failure, with those two binds as its only calls, when the second bind fails
too. -/
theorem display_failure_terminal_for_attempt (drv : Driver) (glVersion : Int) (w : World)
    (hno : w.rt.display = EGL_NO_DISPLAY) :
    (drv.eglGetDisplay w.trace = EGL_NO_DISPLAY →
      InitializeContextLocked drv glVersion w =
        (false, { w with trace := w.trace ++ [Ev.eglGetDisplay EGL_NO_DISPLAY],
                         attempts := w.attempts ++ [glVersion] })) ∧
    (∀ d : Nat, drv.eglGetDisplay w.trace = some d →
      drv.eglInitialize (w.trace ++ [Ev.eglGetDisplay (some d)]) (some d) = false →
      (InitializeContextLocked drv glVersion w).1 = false ∧
      (InitializeContextLocked drv glVersion w).2.trace =
        w.trace ++ [Ev.eglGetDisplay (some d), Ev.eglInitialize (some d) false]) ∧
    ((w.rt.context = EGL_NO_CONTEXT ∨ w.rt.surface = EGL_NO_SURFACE) →
      drv.eglGetDisplay w.trace = EGL_NO_DISPLAY →
      drv.eglGetDisplay (w.trace ++ [Ev.eglGetDisplay EGL_NO_DISPLAY]) = EGL_NO_DISPLAY →
      EnsureGlContext drv w =
        (false, { w with trace := w.trace ++
                           [Ev.eglGetDisplay EGL_NO_DISPLAY, Ev.eglGetDisplay EGL_NO_DISPLAY],
                         attempts := w.attempts ++ [3, 2] })) := by
  refine ⟨InitializeContextLocked_no_display drv glVersion w hno, ?_, ?_⟩
  · intro d hget hinit
    unfold InitializeContextLocked
    simp only [hno, if_true, eglGetDisplay, hget, World.emit, eglInitialize, hinit]
    simp
  · intro hctx h1 h2
    unfold EnsureGlContext
    simp only [hctx, if_true]
    rw [InitializeContextLocked_no_display drv 3 w hno h1]
    simp only [Bool.not_false, if_true]
    rw [InitializeContextLocked_no_display drv 2
      { rt := w.rt, trace := w.trace ++ [Ev.eglGetDisplay EGL_NO_DISPLAY],
        attempts := w.attempts ++ [3] } hno h2]
    simp

/-- C14 amended, at a driver without a display, from the initial state. -/
theorem display_failure_terminal_for_attempt_witness :
    World.initial.rt.display = EGL_NO_DISPLAY ∧
    EnsureGlContext Driver.noDisplay World.initial =
      (false, { World.initial with
                  trace := [Ev.eglGetDisplay EGL_NO_DISPLAY, Ev.eglGetDisplay EGL_NO_DISPLAY],
                  attempts := [3, 2] }) :=
  ⟨rfl, (display_failure_terminal_for_attempt Driver.noDisplay 3 World.initial rfl).2.2
    (Or.inl rfl) rfl rfl⟩

/-- C15 as stated fails: with both markers in the extension list and
total = 0, `QueryGpuMemory` reads `GL_TEXTURE_FREE_MEMORY_ATI`, and two drivers
with the same first-vendor counters (0, 1024) but free = 512 and free = 256
get the different results (512, 0, 512) and (256, 0, 256). -/
theorem first_marker_precedence_counterexample :
    kNvxMarker <:+: joinExtensions
      ["GL_NVX_gpu_memory_info".toList, "GL_ATI_meminfo".toList] ∧
    (QueryExtensions (Driver.memory "GL_NVX_gpu_memory_info GL_ATI_meminfo".toList
      (some 0) (some 1024) (some 512))
      (EnsureGlContext (Driver.memory "GL_NVX_gpu_memory_info GL_ATI_meminfo".toList
        (some 0) (some 1024) (some 512)) World.initial).2).1
      = ["GL_NVX_gpu_memory_info".toList, "GL_ATI_meminfo".toList] ∧
    Ev.glGetIntegerv GLenum.GL_TEXTURE_FREE_MEMORY_ATI (some 512) ∈
      (QueryGpuMemory (Driver.memory "GL_NVX_gpu_memory_info GL_ATI_meminfo".toList
        (some 0) (some 1024) (some 512)) World.initial).2.trace ∧
    (QueryGpuMemory (Driver.memory "GL_NVX_gpu_memory_info GL_ATI_meminfo".toList
      (some 0) (some 1024) (some 512)) World.initial).1 = (512, 0, 512) ∧
    (QueryGpuMemory (Driver.memory "GL_NVX_gpu_memory_info GL_ATI_meminfo".toList
      (some 0) (some 1024) (some 256)) World.initial).1 = (256, 0, 256) := by
  refine ⟨by decide, by decide, by decide, by decide, by decide⟩

/-- C15, amended. With the context available and "GL_NVX_gpu_memory_info" a
substring of the joined extension string (whether or not "GL_ATI_meminfo" is
one too): when total > 0 the call ends right after the two reads of the first
vendor's counters, so `GL_TEXTURE_FREE_MEMORY_ATI` is not read, and the result
is (total, total - max(current, 0), max(current, 0)), a function of (total,
current) alone; when total <= 0 the call goes on with the test of the second
marker. -/
theorem first_marker_precedence (drv : Driver) (w : World) (extensions : List (List Char))
    (w2 w3 w4 : World) (total current : Int)
    (hok : (EnsureGlContext drv w).1 = true)
    (hext : QueryExtensions drv (EnsureGlContext drv w).2 = (extensions, w2))
    (hnvx : kNvxMarker <:+: joinExtensions extensions)
    (htotal : glGetIntegerv drv GLenum.GL_GPU_MEMORY_INFO_TOTAL_AVAILABLE_MEMORY_NVX 0 w2
      = (total, w3))
    (hcurrent : glGetIntegerv drv GLenum.GL_GPU_MEMORY_INFO_CURRENT_AVAILABLE_VIDMEM_NVX 0 w3
      = (current, w4)) :
    (0 < total →
      QueryGpuMemory drv w = ((total, total - max current 0, max current 0), w4)) ∧
    (total ≤ 0 →
      QueryGpuMemory drv w = QueryGpuMemory.ati drv (joinExtensions extensions) w4) := by
  have rt := glGetIntegerv_range drv GLenum.GL_GPU_MEMORY_INFO_TOTAL_AVAILABLE_MEMORY_NVX w2
  have rc := glGetIntegerv_range drv GLenum.GL_GPU_MEMORY_INFO_CURRENT_AVAILABLE_VIDMEM_NVX w3
  rw [htotal] at rt
  rw [hcurrent] at rc
  simp only at rt rc
  have hfind : find (joinExtensions extensions) kNvxMarker ≠ none :=
    (find_ne_none_iff _ _).mpr hnvx
  constructor
  · intro hpos
    unfold QueryGpuMemory
    simp only [hok, hext, htotal, hcurrent, Bool.not_true, Bool.false_eq_true, if_false,
      if_pos hfind, gt_iff_lt, if_pos hpos]
    by_cases hc : 0 < current
    · rw [if_pos hc, max_eq_left (le_of_lt hc), toInt32_of_range _ (by omega) (by omega)]
    · rw [if_neg hc, max_eq_right (not_lt.mp hc), toInt32_of_range _ (by omega) (by omega)]
  · intro hle
    unfold QueryGpuMemory
    simp only [hok, hext, htotal, hcurrent, Bool.not_true, Bool.false_eq_true, if_false,
      if_pos hfind, gt_iff_lt, if_neg (not_lt.mpr hle)]

/-- C15 amended, at a driver with both markers, total = 4096, current = 1024
and free = 512. -/
theorem first_marker_precedence_witness :
    (QueryGpuMemory (Driver.memory "GL_NVX_gpu_memory_info GL_ATI_meminfo".toList
      (some 4096) (some 1024) (some 512)) World.initial).1 = (4096, 3072, 1024) ∧
    Ev.glGetIntegerv GLenum.GL_TEXTURE_FREE_MEMORY_ATI (some 512) ∉
      (QueryGpuMemory (Driver.memory "GL_NVX_gpu_memory_info GL_ATI_meminfo".toList
        (some 4096) (some 1024) (some 512)) World.initial).2.trace :=
  ⟨(congrArg Prod.fst
    ((first_marker_precedence
      (Driver.memory "GL_NVX_gpu_memory_info GL_ATI_meminfo".toList
        (some 4096) (some 1024) (some 512))
      World.initial _ _ _ _ 4096 1024 (by decide) rfl (by decide) rfl rfl).1
      (by decide))).trans (by decide), by decide⟩

/-- C16. A failed initialization attempt is atomic and leak-free: every
`InitializeContextLocked` call that returns false leaves surface, context and
config unchanged, created no context, and destroyed each surface it created;
and after any number of `EnsureGlContext` calls from the initial state, the
surfaces created minus the surfaces destroyed is 1 if the runtime holds a
surface and 0 otherwise, and the contexts created is 1 if the runtime holds
a context and 0 otherwise. -/
theorem failed_attempt_leak_free (drv : Driver) :
    (∀ (glVersion : Int) (w : World), (InitializeContextLocked drv glVersion w).1 = false →
      (InitializeContextLocked drv glVersion w).2.rt.surface = w.rt.surface ∧
      (InitializeContextLocked drv glVersion w).2.rt.context = w.rt.context ∧
      (InitializeContextLocked drv glVersion w).2.rt.config = w.rt.config ∧
      ∃ new : List Ev, (InitializeContextLocked drv glVersion w).2.trace = w.trace ++ new ∧
        new.countP Ev.isSurfaceCreated = new.countP Ev.isSurfaceDestroyed ∧
        new.countP Ev.isContextCreated = 0 ∧
        ∀ (d c s : Handle), s ≠ EGL_NO_SURFACE → Ev.eglCreatePbufferSurface d c s ∈ new →
          Ev.eglDestroySurface d s ∈ new) ∧
    (∀ n : Nat, (EnsureGlContext.calls drv n World.initial).ResourceBalance) := by
  constructor
  · intro v w hfail
    obtain ⟨a, b, c⟩ := InitializeContextLocked_fail drv v w hfail
    obtain ⟨new, hnew, hout⟩ := InitializeContextLocked_balance drv v w
    exact ⟨a, b, c, new, hnew, hout.1 hfail⟩
  · intro n
    have hgen : ∀ (n : Nat) (w : World), w.ResourceInv →
        (EnsureGlContext.calls drv n w).ResourceInv := by
      intro n
      induction n with
      | zero => exact fun w h => h
      | succ n ih =>
        intro w h
        simp only [EnsureGlContext.calls]
        exact ih _ (EnsureGlContext_resource_inv drv w h)
    refine (hgen n World.initial ?_).1
    refine ⟨⟨?_, ?_⟩, ?_⟩ <;> simp [World.initial]

/-- C16, at a driver on which `eglCreateContext` fails: the version-3 attempt
from the initial state fails having created surface 3 and destroyed it, and
the resources are balanced after two `EnsureGlContext` calls. -/
theorem failed_attempt_leak_free_witness :
    (InitializeContextLocked Driver.noContext 3 World.initial).1 = false ∧
    (InitializeContextLocked Driver.noContext 3 World.initial).2.trace =
      [Ev.eglGetDisplay (some 1), Ev.eglInitialize (some 1) true, Ev.eglBindAPI,
       Ev.eglChooseConfig (some 1) true true (some 2) 1,
       Ev.eglCreatePbufferSurface (some 1) (some 2) (some 3),
       Ev.eglCreateContext (some 1) (some 2) 3 none,
       Ev.eglDestroySurface (some 1) (some 3)] ∧
    (InitializeContextLocked Driver.noContext 3 World.initial).2.rt.surface = EGL_NO_SURFACE ∧
    (EnsureGlContext.calls Driver.noContext 2 World.initial).ResourceBalance :=
  ⟨by decide, by decide,
   ((failed_attempt_leak_free Driver.noContext).1 3 World.initial (by decide)).1,
   (failed_attempt_leak_free Driver.noContext).2 2⟩

/-- C17. Make-current failure does not tear down the runtime: for every
`EnsureGlContext` call that reaches `eglMakeCurrent` in a world `w'` (the
context existed, or the version-3 or the version-2 attempt just created it)
and in which `eglMakeCurrent` fails, the call returns false, its last call is
that `eglMakeCurrent`, and display, surface, context and config are those of
`w'`; surface and context are set, and `n` later calls keep the runtime and
call nothing but `eglMakeCurrent`. -/
theorem makeCurrent_failure_keeps_runtime (drv : Driver) (w w' : World) (n : Nat)
    (hreach :
      (w.rt.context ≠ EGL_NO_CONTEXT ∧ w.rt.surface ≠ EGL_NO_SURFACE ∧ w' = w) ∨
      ((w.rt.context = EGL_NO_CONTEXT ∨ w.rt.surface = EGL_NO_SURFACE) ∧
        InitializeContextLocked drv 3 w = (true, w')) ∨
      ((w.rt.context = EGL_NO_CONTEXT ∨ w.rt.surface = EGL_NO_SURFACE) ∧
        (InitializeContextLocked drv 3 w).1 = false ∧
        InitializeContextLocked drv 2 (InitializeContextLocked drv 3 w).2 = (true, w')))
    (hfail : drv.eglMakeCurrent w'.trace w'.rt.display w'.rt.surface w'.rt.surface
      w'.rt.context = false) :
    EnsureGlContext drv w =
      (false, { w' with trace := w'.trace ++
        [Ev.eglMakeCurrent w'.rt.display w'.rt.surface w'.rt.surface w'.rt.context false] }) ∧
    w'.rt.surface ≠ EGL_NO_SURFACE ∧ w'.rt.context ≠ EGL_NO_CONTEXT ∧
    (EnsureGlContext.calls drv n (EnsureGlContext drv w).2).rt = w'.rt ∧
    World.ExtendsBy (fun e => e.isMakeCurrent = true) (EnsureGlContext drv w).2
      (EnsureGlContext.calls drv n (EnsureGlContext drv w).2) := by
  have hmc : EnsureGlContext.makeCurrent drv w' =
      (false, { w' with trace := w'.trace ++
        [Ev.eglMakeCurrent w'.rt.display w'.rt.surface w'.rt.surface w'.rt.context false] }) := by
    unfold EnsureGlContext.makeCurrent
    simp only [eglMakeCurrent, hfail, Bool.not_false, if_true, World.emit]
  have hens : EnsureGlContext drv w = EnsureGlContext.makeCurrent drv w' ∧
      w'.rt.surface ≠ EGL_NO_SURFACE ∧ w'.rt.context ≠ EGL_NO_CONTEXT := by
    rcases hreach with ⟨hc, hs, rfl⟩ | ⟨hno, h3⟩ | ⟨hno, h3, h2⟩
    · refine ⟨?_, hs, hc⟩
      unfold EnsureGlContext
      simp only [hc, hs, or_self, if_false]
    · have hsucc := InitializeContextLocked_success drv 3 w (by rw [h3])
      rw [h3] at hsucc
      refine ⟨?_, hsucc.1, hsucc.2.1⟩
      unfold EnsureGlContext
      simp only [hno, if_true, h3, Bool.not_true, Bool.false_eq_true, if_false]
    · have hsucc := InitializeContextLocked_success drv 2 _ (by rw [h2])
      rw [h2] at hsucc
      refine ⟨?_, hsucc.1, hsucc.2.1⟩
      unfold EnsureGlContext
      simp only [hno, if_true, h3, h2, Bool.not_false, Bool.not_true, Bool.false_eq_true,
        if_false]
  obtain ⟨he, hs, hc⟩ := hens
  rw [he, hmc]
  refine ⟨rfl, hs, hc, ?_⟩
  obtain ⟨a, _, new, hnew, _, hall⟩ := calls_of_ready drv n
    { w' with trace := w'.trace ++
        [Ev.eglMakeCurrent w'.rt.display w'.rt.surface w'.rt.surface w'.rt.context false] }
    hc hs
  refine ⟨a, new, hnew, ?_⟩
  intro e hemem
  obtain ⟨r, hr⟩ := hall e hemem
  rw [hr]
  rfl

/-- C17, at a driver on which everything succeeds except `eglMakeCurrent`: the
first call creates the context and fails, two later calls reuse it. -/
theorem makeCurrent_failure_keeps_runtime_witness :
    (EnsureGlContext Driver.noMakeCurrent World.initial).1 = false ∧
    (EnsureGlContext.calls Driver.noMakeCurrent 2
      (EnsureGlContext Driver.noMakeCurrent World.initial).2).rt =
      { display := some 1, surface := some 3, context := some 4, config := some 2 } :=
  ⟨congrArg Prod.fst
    (makeCurrent_failure_keeps_runtime Driver.noMakeCurrent World.initial
      (InitializeContextLocked Driver.noMakeCurrent 3 World.initial).2 2
      (Or.inr (Or.inl ⟨Or.inl rfl, Prod.ext (by decide) rfl⟩)) (by decide)).1,
   (makeCurrent_failure_keeps_runtime Driver.noMakeCurrent World.initial
      (InitializeContextLocked Driver.noMakeCurrent 3 World.initial).2 2
      (Or.inr (Or.inl ⟨Or.inl rfl, Prod.ext (by decide) rfl⟩)) (by decide)).2.2.2.1.trans
      (by decide)⟩

/-- C18. The marker test on the joined string is a test per extension: for
every sequence of extension names, whatever they hold, each of the markers
"GL_NVX_gpu_memory_info" and "GL_ATI_meminfo" is found in the string built by
appending every name followed by one space if and only if it is a substring
of at least one name. -/
theorem marker_test_per_extension (extensions : List (List Char)) :
    (find (joinExtensions extensions) kNvxMarker ≠ none ↔
      ∃ name ∈ extensions, kNvxMarker <:+: name) ∧
    (find (joinExtensions extensions) kAtiMarker ≠ none ↔
      ∃ name ∈ extensions, kAtiMarker <:+: name) := by
  constructor
  · rw [find_ne_none_iff]
    exact infix_joinExtensions kNvxMarker (by decide) (by decide) extensions
  · rw [find_ne_none_iff]
    exact infix_joinExtensions kAtiMarker (by decide) (by decide) extensions

/-- C19 at its failing input: an accelerometer at rest delivers three events
with the vector (0, 0, 9.8), so the minimum and the maximum of the sampled
values are equal on every axis; yet after the polling loop `minVals` is
(0, 0, 0) and `maxVals` is (0, 0, 9.8), and `nativeCheckSensors` returns
`[1, 1]`: the sensor is counted as varying. -/
theorem nativeCheckSensors_constant_counted_varying :
    (∀ batch ∈ SensorService.atRest.batches, ∀ event ∈ batch, event.v = [0, 0, 49 / 5]) ∧
    (sensorStateAfterPolling SensorService.atRest).stats.getD 0 {} =
      { active := true, samples := 3, minVals := [0, 0, 0], maxVals := [0, 0, 49 / 5] } ∧
    Java_com_protosdk_sdk_fingerprint_nativebridge_EmulatorDetectionBridge_nativeCheckSensors
      SensorService.atRest = [1, 1] := by
  refine ⟨?_, ?_, ?_⟩
  · simp [SensorService.atRest]
  · simp [sensorStateAfterPolling, SensorService.atRest, pollEvents, handleEvents,
      enableSensors, sensorTypes, updateStats, List.modify, List.lookup]
    norm_num
  · simp [Java_com_protosdk_sdk_fingerprint_nativebridge_EmulatorDetectionBridge_nativeCheckSensors,
      sensorStateAfterPolling, SensorService.atRest, pollEvents, handleEvents, enableSensors,
      sensorTypes, updateStats, List.modify, List.lookup, countSensors, isVarying,
      kVarianceThreshold]
    norm_num

/-- C20. XOR decode round trip: for every non-empty key of non-zero bytes and
every plaintext without a zero byte, `DecodePayload` and `nativeDecodeString`
applied to a payload whose elements agree with plaintext[i] XOR
key[i mod |key|] in their low 8 bits, and to the same key, return exactly the
plaintext; both return the empty string when the payload is null or empty or
the key is null or empty; and in general the result is the sequence of the
bytes (payload[i] XOR key[i mod |key|]) AND 0xFF cut off before its first zero
byte. -/
theorem DecodePayload_roundtrip (env : JNIEnv) :
    (∀ (payload : List Int) (key plaintext : List Nat),
      key ≠ [] → (∀ k ∈ key, k ≠ 0 ∧ k < 256) → (∀ c ∈ plaintext, c ≠ 0) →
      payload.length = plaintext.length →
      (∀ i, i < plaintext.length →
        (payload.getD i 0 % 256).toNat = plaintext.getD i 0 ^^^ key.getD (i % key.length) 0) →
      env.GetStringUTFChars key = some key →
      DecodePayload env (some payload) (some key) = plaintext ∧
      Java_com_protosdk_sdk_fingerprint_nativebridge_EmulatorDetectionBridge_nativeDecodeString
        env (some payload) (some key) = some plaintext) ∧
    (∀ (payload : Option (List Int)) (key : Option (List Nat)),
      (payload = none ∨ payload = some [] ∨ key = none ∨
        (key = some [] ∧ env.GetStringUTFChars [] = some [])) →
      DecodePayload env payload key = [] ∧
      Java_com_protosdk_sdk_fingerprint_nativebridge_EmulatorDetectionBridge_nativeDecodeString
        env payload key = some []) ∧
    (∀ (payload : List Int) (key : List Nat),
      key ≠ [] → (∀ k ∈ key, k ≠ 0) → env.GetStringUTFChars key = some key →
      DecodePayload env (some payload) (some key) =
        cstr ((List.range payload.length).map (decodedByte payload key key.length)) ∧
      Java_com_protosdk_sdk_fingerprint_nativebridge_EmulatorDetectionBridge_nativeDecodeString
        env (some payload) (some key) =
        some (cstr ((List.range payload.length).map (decodedByte payload key key.length)))) := by
  refine ⟨?_, ?_, fun payload key hkey hbytes henv => decoders_general env payload key hkey
    hbytes henv⟩
  · intro payload key plaintext hkey hbytes hplain hlen hxor henv
    obtain ⟨h1, h2⟩ := decoders_general env payload key hkey (fun k hk => (hbytes k hk).1) henv
    rw [h1, h2, decoded_eq_plaintext payload key plaintext hkey (fun k hk => (hbytes k hk).2)
      hlen hxor, cstr_of_nonzero plaintext hplain]
    exact ⟨rfl, rfl⟩
  · intro payload key h
    unfold DecodePayload
      Java_com_protosdk_sdk_fingerprint_nativebridge_EmulatorDetectionBridge_nativeDecodeString
    rcases h with h | h | h | ⟨h, henv⟩
    · subst h
      simp
    · subst h
      cases key <;> simp
    · subst h
      cases payload <;> simp
    · subst h
      cases payload with
      | none => simp
      | some buffer =>
        simp only [henv, cstr, List.takeWhile_nil, List.length_nil, if_true]
        split_ifs <;> exact ⟨rfl, rfl⟩

/-- C20, at the key "key" and the plaintext "Hi!?", with higher bits set in
the first two payload elements. -/
theorem DecodePayload_roundtrip_witness :
    DecodePayload JNIEnv.ok (some [291, -500, 88, 84])
      (some [107, 101, 121]) = [72, 105, 33, 63] := by
  have h := (DecodePayload_roundtrip JNIEnv.ok).1
      [291, -500, 88, 84] [107, 101, 121]
      [72, 105, 33, 63] (by decide) (by decide) (by decide) (by decide) (by decide) rfl
  exact h.1

end GpuChecker
